import Mathlib

/-!
Verification development for the kzero-service repository.

This file gives a shallow embedding, in Lean 4, of the parts of the
repository that the frozen claims are about:

* `packages/common/src/poseidon.ts` — the variable-arity Poseidon hash
  dispatcher (`poseidonHash`), together with a concrete embedding of the
  poseidon-lite BN254 primitives for the arities the claims evaluate
  (arity 2, state width t = 3, and arity 10, state width t = 11);
* `packages/common/src/convert.ts` — the ZK input builder
  (`generateZKInput`) and all its helper functions (`convertBase`,
  `getLimbs`, `getUnsignedPaddedJWT`, `getExtKCFields`, `getKCString`,
  `getBase64String`, `getAddressSeed`, `getAllInputsHash`, ...);
* `apps/proof-server/src/config/config.interface.ts` (the
  `ProofTaskService` scheduler tick and its timeout closure) and
  `apps/proof-server/src/proof-websocket/proof-websocket.gateway.ts`
  (`getAvailableWorker`, `handleProofResult`).

JavaScript semantics are modelled explicitly: `BigInt` becomes `Nat`
(or `Int` where a value can be negative), fallible code returns
`Except`, `Array(n)` with negative `n` becomes an error value
(JS throws `RangeError: Invalid array length`), `String.prototype.substring`
clamps and swaps its arguments, `indexOf` returns `-1` on failure, `%` on
possibly-negative numbers is truncated remainder (`Int.tmod`) and
`Math.floor` of a quotient is flooring division (`Int.fdiv`).
Unbounded recursion (the Poseidon dispatcher recursing on slices) is
modelled with an explicit fuel parameter; divergence of the source then
shows up as failure at every fuel.

External libraries that the source calls (`jose`'s `decodeJwt`,
`JSON.parse` for the JWT header) are modelled as parameters collected in
an `Ext` structure; everything else is translated from the repository
source.
-/

set_option maxRecDepth 100000

namespace KZero

/-- The BN254 scalar field prime, the field over which poseidon-lite
(and hence `poseidonHash`) operates. -/
def Fp : Nat := 21888242871839275222246405745257275088548364400416034343698204186575808495617

/-- Field addition modulo `Fp`. -/
def fadd (a b : Nat) : Nat := (a + b) % Fp

/-- Field multiplication modulo `Fp`. -/
def fmul (a b : Nat) : Nat := (a * b) % Fp

/-- The Poseidon S-box `x ↦ x^5` modulo `Fp`. -/
def pow5 (a : Nat) : Nat :=
  let a2 := fmul a a
  fmul (fmul a2 a2) a

/-- Tail-recursive list length with an eagerly forced accumulator (the
accumulator is matched on each step, so evaluation stays iterative); equal
to `List.length` — see `listLen_eq`. -/
def listLenGo : List α → Nat → Nat
  | [], acc => acc
  | _ :: l, 0 => listLenGo l 1
  | _ :: l, acc + 1 => listLenGo l (acc + 1 + 1)

/-- The length of a list (iterative form of `List.length`). -/
def listLen (l : List α) : Nat := listLenGo l 0

/-- Chunking with structural fuel (one element of the fuel list is spent
per emitted chunk; the chunked list itself is sufficient fuel whenever
`1 ≤ size`). Models both the regex-based `chunkString(str, l)` of
`convert.ts` and the slice loop in `convertBase`. -/
def chunkListGo (size : Nat) : List α → List α → List (List α)
  | _, [] => []
  | [], _ :: _ => []
  | _ :: fuel, a :: l => (a :: l).take size :: chunkListGo size fuel ((a :: l).drop size)

/-- Split a list into consecutive chunks of `size` elements (the final
chunk may be shorter). -/
def chunkList (l : List α) (size : Nat) : List (List α) :=
  chunkListGo size l l

/-- One Poseidon round (poseidon-lite): add the round constants, apply the
S-box to the whole state in a full round and to `state[0]` in a partial
round, then mix with the MDS matrix. `rc.1` is the round index, `rc.2` the
round-constant slice; full rounds are `r < 4` and `r ≥ 4 + rP`
(`N_ROUNDS_F = 8`). -/
def poseidonRound (rP : Nat) (M : List (List Nat)) (st : List Nat) (rc : Nat × List Nat) :
    List Nat :=
  let st1 := List.zipWith fadd st rc.2
  let st2 :=
    if rc.1 < 4 ∨ 4 + rP ≤ rc.1 then st1.map pow5
    else
      match st1 with
      | [] => []
      | x :: xs => pow5 x :: xs
  M.map fun row => (List.zipWith fmul row st2).foldl fadd 0

/-- The poseidon-lite permutation-and-squeeze: state `[0, ...inputs]`,
`8 + rP` rounds consuming the flat constant list `C` in slices of the
state width, output `state[0]`. -/
def poseidonPerm (rP : Nat) (C : List Nat) (M : List (List Nat)) (inputs : List Nat) : Nat :=
  let t := inputs.length + 1
  let state := 0 :: inputs
  ((chunkList C t).enum.foldl (poseidonRound rP M) state).headD 0

/-- Round constants for the BN254 Poseidon instance with state width t = 3
(arity 2), as fixed by the poseidon-lite / circomlib parameter set. -/
def poseidonC3 : List Nat := [
  6745197990210204598374042828761989596302876299545964402857411729872131034734,
  426281677759936592021316809065178817848084678679510574715894138690250139748,
  4014188762916583598888942667424965430287497824629657219807941460227372577781,
  21328925083209914769191926116470334003273872494252651254811226518870906634704,
  19525217621804205041825319248827370085205895195618474548469181956339322154226,
  1402547928439424661186498190603111095981986484908825517071607587179649375482,
  18320863691943690091503704046057443633081959680694199244583676572077409194605,
  17709820605501892134371743295301255810542620360751268064484461849423726103416,
  15970119011175710804034336110979394557344217932580634635707518729185096681010,
  9818625905832534778628436765635714771300533913823445439412501514317783880744,
  6235167673500273618358172865171408902079591030551453531218774338170981503478,
  12575685815457815780909564540589853169226710664203625668068862277336357031324,
  7381963244739421891665696965695211188125933529845348367882277882370864309593,
  14214782117460029685087903971105962785460806586237411939435376993762368956406,
  13382692957873425730537487257409819532582973556007555550953772737680185788165,
  2203881792421502412097043743980777162333765109810562102330023625047867378813,
  2916799379096386059941979057020673941967403377243798575982519638429287573544,
  4341714036313630002881786446132415875360643644216758539961571543427269293497,
  2340590164268886572738332390117165591168622939528604352383836760095320678310,
  5222233506067684445011741833180208249846813936652202885155168684515636170204,
  7963328565263035669460582454204125526132426321764384712313576357234706922961,
  1394121618978136816716817287892553782094854454366447781505650417569234586889,
  20251767894547536128245030306810919879363877532719496013176573522769484883301,
  141695147295366035069589946372747683366709960920818122842195372849143476473,
  15919677773886738212551540894030218900525794162097204800782557234189587084981,
  2616624285043480955310772600732442182691089413248613225596630696960447611520,
  4740655602437503003625476760295930165628853341577914460831224100471301981787,
  19201590924623513311141753466125212569043677014481753075022686585593991810752,
  12116486795864712158501385780203500958268173542001460756053597574143933465696,
  8481222075475748672358154589993007112877289817336436741649507712124418867136,
  5181207870440376967537721398591028675236553829547043817076573656878024336014,
  1576305643467537308202593927724028147293702201461402534316403041563704263752,
  2555752030748925341265856133642532487884589978209403118872788051695546807407,
  18840924862590752659304250828416640310422888056457367520753407434927494649454,
  14593453114436356872569019099482380600010961031449147888385564231161572479535,
  20826991704411880672028799007667199259549645488279985687894219600551387252871,
  9159011389589751902277217485643457078922343616356921337993871236707687166408,
  5605846325255071220412087261490782205304876403716989785167758520729893194481,
  1148784255964739709393622058074925404369763692117037208398835319441214134867,
  20945896491956417459309978192328611958993484165135279604807006821513499894540,
  229312996389666104692157009189660162223783309871515463857687414818018508814,
  21184391300727296923488439338697060571987191396173649012875080956309403646776,
  21853424399738097885762888601689700621597911601971608617330124755808946442758,
  12776298811140222029408960445729157525018582422120161448937390282915768616621,
  7556638921712565671493830639474905252516049452878366640087648712509680826732,
  19042212131548710076857572964084011858520620377048961573689299061399932349935,
  12871359356889933725034558434803294882039795794349132643274844130484166679697,
  3313271555224009399457959221795880655466141771467177849716499564904543504032,
  15080780006046305940429266707255063673138269243146576829483541808378091931472,
  21300668809180077730195066774916591829321297484129506780637389508430384679582,
  20480395468049323836126447690964858840772494303543046543729776750771407319822,
  10034492246236387932307199011778078115444704411143703430822959320969550003883,
  19584962776865783763416938001503258436032522042569001300175637333222729790225,
  20155726818439649091211122042505326538030503429443841583127932647435472711802,
  13313554736139368941495919643765094930693458639277286513236143495391474916777,
  14606609055603079181113315307204024259649959674048912770003912154260692161833,
  5563317320536360357019805881367133322562055054443943486481491020841431450882,
  10535419877021741166931390532371024954143141727751832596925779759801808223060,
  12025323200952647772051708095132262602424463606315130667435888188024371598063,
  2906495834492762782415522961458044920178260121151056598901462871824771097354,
  19131970618309428864375891649512521128588657129006772405220584460225143887876,
  8896386073442729425831367074375892129571226824899294414632856215758860965449,
  7748212315898910829925509969895667732958278025359537472413515465768989125274,
  422974903473869924285294686399247660575841594104291551918957116218939002865,
  6398251826151191010634405259351528880538837895394722626439957170031528482771,
  18978082967849498068717608127246258727629855559346799025101476822814831852169,
  19150742296744826773994641927898928595714611370355487304294875666791554590142,
  12896891575271590393203506752066427004153880610948642373943666975402674068209,
  9546270356416926575977159110423162512143435321217584886616658624852959369669,
  2159256158967802519099187112783460402410585039950369442740637803310736339200,
  8911064487437952102278704807713767893452045491852457406400757953039127292263,
  745203718271072817124702263707270113474103371777640557877379939715613501668,
  19313999467876585876087962875809436559985619524211587308123441305315685710594,
  13254105126478921521101199309550428567648131468564858698707378705299481802310,
  1842081783060652110083740461228060164332599013503094142244413855982571335453,
  9630707582521938235113899367442877106957117302212260601089037887382200262598,
  5066637850921463603001689152130702510691309665971848984551789224031532240292,
  4222575506342961001052323857466868245596202202118237252286417317084494678062,
  2919565560395273474653456663643621058897649501626354982855207508310069954086,
  6828792324689892364977311977277548750189770865063718432946006481461319858171,
  2245543836264212411244499299744964607957732316191654500700776604707526766099,
  19602444885919216544870739287153239096493385668743835386720501338355679311704,
  8239538512351936341605373169291864076963368674911219628966947078336484944367,
  15053013456316196458870481299866861595818749671771356646798978105863499965417,
  7173615418515925804810790963571435428017065786053377450925733428353831789901,
  8239211677777829016346247446855147819062679124993100113886842075069166957042,
  15330855478780269194281285878526984092296288422420009233557393252489043181621,
  10014883178425964324400942419088813432808659204697623248101862794157084619079,
  14014440630268834826103915635277409547403899966106389064645466381170788813506,
  3580284508947993352601712737893796312152276667249521401778537893620670305946,
  2559754020964039399020874042785294258009596917335212876725104742182177996988,
  14898657953331064524657146359621913343900897440154577299309964768812788279359,
  2094037260225570753385567402013028115218264157081728958845544426054943497065,
  18051086536715129874440142649831636862614413764019212222493256578581754875930,
  21680659279808524976004872421382255670910633119979692059689680820959727969489,
  13950668739013333802529221454188102772764935019081479852094403697438884885176,
  9703845704528288130475698300068368924202959408694460208903346143576482802458,
  12064310080154762977097567536495874701200266107682637369509532768346427148165,
  16970760937630487134309762150133050221647250855182482010338640862111040175223,
  9790997389841527686594908620011261506072956332346095631818178387333642218087,
  16314772317774781682315680698375079500119933343877658265473913556101283387175,
  82044870826814863425230825851780076663078706675282523830353041968943811739,
  21696416499108261787701615667919260888528264686979598953977501999747075085778,
  327771579314982889069767086599893095509690747425186236545716715062234528958,
  4606746338794869835346679399457321301521448510419912225455957310754258695442,
  64499140292086295251085369317820027058256893294990556166497635237544139149,
  10455028514626281809317431738697215395754892241565963900707779591201786416553,
  10421411526406559029881814534127830959833724368842872558146891658647152404488,
  18848084335930758908929996602136129516563864917028006334090900573158639401697,
  13844582069112758573505569452838731733665881813247931940917033313637916625267,
  13488838454403536473492810836925746129625931018303120152441617863324950564617,
  15742141787658576773362201234656079648895020623294182888893044264221895077688,
  6756884846734501741323584200608866954194124526254904154220230538416015199997,
  7860026400080412708388991924996537435137213401947704476935669541906823414404,
  7871040688194276447149361970364037034145427598711982334898258974993423182255,
  20758972836260983284101736686981180669442461217558708348216227791678564394086,
  21723241881201839361054939276225528403036494340235482225557493179929400043949,
  19428469330241922173653014973246050805326196062205770999171646238586440011910,
  7969200143746252148180468265998213908636952110398450526104077406933642389443,
  10950417916542216146808986264475443189195561844878185034086477052349738113024,
  18149233917533571579549129116652755182249709970669448788972210488823719849654,
  3729796741814967444466779622727009306670204996071028061336690366291718751463,
  5172504399789702452458550583224415301790558941194337190035441508103183388987,
  6686473297578275808822003704722284278892335730899287687997898239052863590235,
  19426913098142877404613120616123695099909113097119499573837343516470853338513,
  5120337081764243150760446206763109494847464512045895114970710519826059751800,
  5055737465570446530938379301905385631528718027725177854815404507095601126720,
  14235578612970484492268974539959119923625505766550088220840324058885914976980,
  653592517890187950103239281291172267359747551606210609563961204572842639923,
  5507360526092411682502736946959369987101940689834541471605074817375175870579,
  7864202866011437199771472205361912625244234597659755013419363091895334445453,
  21294659996736305811805196472076519801392453844037698272479731199885739891648,
  13767183507040326119772335839274719411331242166231012705169069242737428254651,
  810181532076738148308457416289197585577119693706380535394811298325092337781,
  14232321930654703053193240133923161848171310212544136614525040874814292190478,
  16796904728299128263054838299534612533844352058851230375569421467352578781209,
  16256310366973209550759123431979563367001604350120872788217761535379268327259,
  19791658638819031543640174069980007021961272701723090073894685478509001321817,
  7046232469803978873754056165670086532908888046886780200907660308846356865119,
  16001732848952745747636754668380555263330934909183814105655567108556497219752,
  9737276123084413897604802930591512772593843242069849260396983774140735981896,
  11410895086919039954381533622971292904413121053792570364694836768885182251535,
  19098362474249267294548762387533474746422711206129028436248281690105483603471,
  11013788190750472643548844759298623898218957233582881400726340624764440203586,
  2206958256327295151076063922661677909471794458896944583339625762978736821035,
  7171889270225471948987523104033632910444398328090760036609063776968837717795,
  2510237900514902891152324520472140114359583819338640775472608119384714834368,
  8825275525296082671615660088137472022727508654813239986303576303490504107418,
  1481125575303576470988538039195271612778457110700618040436600537924912146613,
  16268684562967416784133317570130804847322980788316762518215429249893668424280,
  4681491452239189664806745521067158092729838954919425311759965958272644506354,
  3131438137839074317765338377823608627360421824842227925080193892542578675835,
  7930402370812046914611776451748034256998580373012248216998696754202474945793,
  8973151117361309058790078507956716669068786070949641445408234962176963060145,
  10223139291409280771165469989652431067575076252562753663259473331031932716923,
  2232089286698717316374057160056566551249777684520809735680538268209217819725,
  16930089744400890347392540468934821520000065594669279286854302439710657571308,
  21739597952486540111798430281275997558482064077591840966152905690279247146674,
  7508315029150148468008716674010060103310093296969466203204862163743615534994,
  11418894863682894988747041469969889669847284797234703818032750410328384432224,
  10895338268862022698088163806301557188640023613155321294365781481663489837917,
  18644184384117747990653304688839904082421784959872380449968500304556054962449,
  7414443845282852488299349772251184564170443662081877445177167932875038836497,
  5391299369598751507276083947272874512197023231529277107201098701900193273851,
  10329906873896253554985208009869159014028187242848161393978194008068001342262,
  4711719500416619550464783480084256452493890461073147512131129596065578741786,
  11943219201565014805519989716407790139241726526989183705078747065985453201504,
  4298705349772984837150885571712355513879480272326239023123910904259614053334,
  9999044003322463509208400801275356671266978396985433172455084837770460579627,
  4908416131442887573991189028182614782884545304889259793974797565686968097291,
  11963412684806827200577486696316210731159599844307091475104710684559519773777,
  20129916000261129180023520480843084814481184380399868943565043864970719708502,
  12884788430473747619080473633364244616344003003135883061507342348586143092592,
  20286808211545908191036106582330883564479538831989852602050135926112143921015,
  16282045180030846845043407450751207026423331632332114205316676731302016331498,
  4332932669439410887701725251009073017227450696965904037736403407953448682093,
  11105712698773407689561953778861118250080830258196150686012791790342360778288,
  21853934471586954540926699232107176721894655187276984175226220218852955976831,
  9807888223112768841912392164376763820266226276821186661925633831143729724792,
  13411808896854134882869416756427789378942943805153730705795307450368858622668,
  17906847067500673080192335286161014930416613104209700445088168479205894040011,
  14554387648466176616800733804942239711702169161888492380425023505790070369632,
  4264116751358967409634966292436919795665643055548061693088119780787376143967,
  2401104597023440271473786738539405349187326308074330930748109868990675625380,
  12251645483867233248963286274239998200789646392205783056343767189806123148785,
  15331181254680049984374210433775713530849624954688899814297733641575188164316,
  13108834590369183125338853868477110922788848506677889928217413952560148766472,
  6843160824078397950058285123048455551935389277899379615286104657075620692224,
  10151103286206275742153883485231683504642432930275602063393479013696349676320,
  7074320081443088514060123546121507442501369977071685257650287261047855962224,
  11413928794424774638606755585641504971720734248726394295158115188173278890938,
  7312756097842145322667451519888915975561412209738441762091369106604423801080,
  7181677521425162567568557182629489303281861794357882492140051324529826589361,
  15123155547166304758320442783720138372005699143801247333941013553002921430306,
  13409242754315411433193860530743374419854094495153957441316635981078068351329
]

/-- MDS matrix for the BN254 Poseidon instance with state width t = 3. -/
def poseidonM3 : List (List Nat) := [
  [7511745149465107256748700652201246547602992235352608707588321460060273774987,
    10370080108974718697676803824769673834027675643658433702224577712625900127200,
    19705173408229649878903981084052839426532978878058043055305024233888854471533],
  [18732019378264290557468133440468564866454307626475683536618613112504878618481,
    20870176810702568768751421378473869562658540583882454726129544628203806653987,
    7266061498423634438633389053804536045105766754026813321943009179476902321146],
  [9131299761947733513298312097611845208338517739621853568979632113419485819303,
    10595341252162738537912664445405114076324478519622938027420701542910180337937,
    11597556804922396090267472882856054602429588299176362916247939723151043581408]
]
/-- Round constants for the BN254 Poseidon instance with state width t = 11
(arity 10), as fixed by the poseidon-lite / circomlib parameter set. -/
def poseidonC11 : List Nat := [
  3312280834382673867321630616941760639861515464094877629805120494360011490649,
  2977163727414618213643725802224710174200189681501907689708278449275625624600,
  17077799405481633745546679084486353025600250694578521370656758513725453934742,
  16210306379465933080277173890273457210762404430253284947889895341785601089390,
  12306944281360832043572721821716739944034354411349456264300159795863030116042,
  18510116198433364516004461541873904955505055486081639325191415467980353992665,
  20171004681243290383397478639749648403640483231061520437292129889020927831789,
  14216817867363924461443287436236130110420963767734530602158091056747850914504,
  1744244489393376249430799522637230427855625055124494576876957852023791759325,
  7129585843913921821110812028399979173266826966429993304814409727296136874103,
  13988404968409685403326663187671698975733642730286219911002602918437679901860,
  16920638563061193407835052036305459051417920006020130846290964059193276218943,
  13427470979587753937642822251845898994765547507421045262408080469011197338416,
  4951343674183369875263494313821909834781608226183187917185914650592996842297,
  8735432128376864913532575297691608527208524295369583136876379560735670033436,
  11506191123509320764309490571835590914265043835723578099434891464809664894670,
  11860937155601787389575216601739962955686948385964703064981923542694893487713,
  10828014814384016644406621862814561467981545748254521286078083584574739936124,
  4776443388323724363690349417451836132533385226194261923508005690866227183177,
  16639991477904781874568583121789695884424899367435699700192357030587346907362,
  63646460855616590932366082663720069120195784636826940928051354727568777173,
  13872046592464170980392921000435473279488582870563366687909512908597101541579,
  2903974073963148433036990643522953333905364588702098342158750794553468542208,
  13972003294927197976860685316247379324920372226280483226377669417062686947906,
  13868504415208879955736997036981136359599594082926486546672963310629609974499,
  8628454286960990606041697926325623221475249983044062173729208432417417750989,
  11883151436851199698252725037318235080760967011947670552161788839027156740653,
  12343286145222861673187914724623142745362406729785896500578210646320713733295,
  13240444180513188371213070455300718988708567038226911680564203350475184135088,
  17225520781620743741263824011599257737446498734177523099795883619924078366351,
  19655364901125310778629982245392767297984820167114789563931170716695750865678,
  10695212283696096281132213692300627346215324066996398339089365835910730561368,
  17455827037964560948521638828961298975187156274841334841074216120311558804710,
  4382628454630801450077593442523632674983545561122254229775876033334437860489,
  2989679808908579687765205532943224072820070594304724633625888454150084631070,
  11805110513334566809098991762079653200819786354513225301120697798603509678793,
  11155601993809199490094826448585668454159517005968097566996288487138255635079,
  20815808565222781796761554019974947099963702926722486604443826341123930622896,
  13761986205307878615460321377264044874010177269812603883540272922422883198979,
  4128370443753246025606114169149035926146394950057754901868026654335917771101,
  9124459754124711043815747649012164723935008821275709951889811488049411892152,
  9090302853448501945809598864330384875455576758214379286451409039855851539841,
  2611158043123761410817152601927516372222739024190920897371539155273224585905,
  7810155525349201315441227323507184944737106980192978514457375337581213081055,
  15249792920950763850993517571920601821568311809174912509031437118050063777525,
  9921562618684201533699293485620188871082795988970107962425978745591461148033,
  5414565587238798987874533039507833069864773781235217517734130524969939419113,
  11085088558016600803149927568829483866020077054827488081829062938808919799801,
  14625818170426402577283649455001357862456467374537021301451880577607106726350,
  11633423263664104506250995123678976351167359685182986641330218055115412525059,
  850899676511673590463501492472742017261347013078251845952824541653369171366,
  1151196396804070641219917031443763313740170846357000808196046482153806050391,
  14335865562369989392722415692597018596062508514718062574213639729550753584518,
  16165235837546690396792041022833296046736592940683337326949013823518030323769,
  6408098377682813619850142098164780329355428625834955152400958576961120931380,
  21423078154100258346688828020904418548554497199114189102725137286930868022538,
  21410217312460027364452766052404349950133415202888862471159726884511205456308,
  11096458349387432633781125315606380225216758142658673665437375204143306261827,
  8325016245207932555950059013310928498109578689420634828690059159861280125058,
  19120379171572846193451984132488836287003157955913585086569467602620121544962,
  15548527549295346334479152412121638073047322389003226521019746206475690857238,
  18510388922178653264949279980605433471616208226685385338922150015851847524587,
  10348792093961922144290405029634579505420677504732581441616360506905620826544,
  15620530873228503134208333316448182712901874887467615537478242394290577386453,
  20675095206674416295505702734315255961699360732886837937979451051773488542601,
  21623072135556656816074223163769126264910877148099315666172910436076676028248,
  20081866552983231525843337497912436927329172443916196026679813450860013966767,
  18951602909834406133815764463249536936478826139929746486734639774975812472830,
  2378298801465585253495854322066504889300467395616155363977621341822205588163,
  7488881447347091058309495011922138185162376888083687541108039236558708660027,
  7225960736862847948475548065508931552528126330579521291190635548005260333390,
  2970482373109443685421063487292183827150496377598629996362474558885993864176,
  21734396161383902760672518999845141937065773419899625136190973118533490737305,
  18986003927424880427453510819113519633513383085919786483726156674699889468820,
  9438591792749742425198760386567115998731905494024392289196006582112950891516,
  1973470346155075248881651300830631935042830364217214073906277058522882105581,
  13791817954605171888781711015587425735543149752618332811612012047724803625120,
  19907506629242812934309078271817109951335091294976452370249234742626462372763,
  7913144809845970358468253448033359382532594356254540499933138806226450398795,
  18786719915196826164016145948631708915544945593653634575689240810328854731069,
  6216910690440344513687669938632060553287695043116654216600911463719413604341,
  13963849909448408572632889978998938642084255012365277702934245702305832007005,
  15044749345099947962217476120263824356898437745229321420257770262954985403569,
  16364542436173489908162544844694842746117292595057249540926274681176755002520,
  18582462045999492294572047486602601352613220856614634390669602502489215736186,
  17106926147340558311732938581031578597532846523271406141897942990261560966411,
  21322204968737434192679865858477095835509790782891920152044718985713652659654,
  5180799590809942717590072710973007480225145652031514943521639316776384894144,
  17327427769240537767056224186269899694170666500703858813203303301835294225360,
  12795226231932513901983143961810913124288321956641191561823103283353203953207,
  21372571405151778511626450096485639101933984498294796899325401511071517993005,
  17332300051629640554924347563178488077648079908152291094969979591786473880576,
  15196566643676483159109284476812079407469293035334983717971092729005139246767,
  11231435533605861369104078150337976075098864909987541459896164149690464379912,
  2542242881481757350297627187544723135156543853134475677976341602496676452300,
  8414397814915895101029770303847330205837773505982623383796193602695811122514,
  20884120591077768210550361293303217187539921930869577755703150175746557517590,
  890887689926165781226591337399563217015154445631688026491595317246205069769,
  7911456647213080390137926613780820211986390960677915664339039845274033704843,
  8086506254215085366863905182926378819432294332631815038288539116592866850975,
  17073560037383161517623747613125771654997798954263090273202401066518468858416,
  7837662874931236958961077774488634261606966280628598881837875736120392183663,
  1858593536177571875355498014960393860692560832490490994119420708212532861823,
  2029815832061982114925482969267067531992443107339599745974909462412297854269,
  9638056659007828434670080110322180928336402529095853481855440674860675897358,
  12340090961747329883452841216385303705169146011720720105809463143491658552866,
  8529510825845236935037301291679257193837435275552609577171369718448324660013,
  4191225223853834143599110761318464286196261585898512902425773974473427757456,
  21023319679135760820789157052868478773370737850886002789313940767424256194356,
  2142526213326613906831098262446296658577569180284637200640763867788179991570,
  4585042017455545746057351957720948202590802829528217263388726369695890670411,
  10010708638531752335740573636867640657039858389864446260449096531856416238708,
  12350783923218275606957028867683130968505845112714635024839732952215498877130,
  11964414264447046767815837108295373861475122940092369903025175128013924386713,
  18615506936496648840383399989920850970951406181285583088268789582149764054418,
  14310480127014971068920522498055725465578544829224822580493909725079522528728,
  19209887743481507043830894286806384055543596834772181434542567255388724841969,
  9558553005299269735641084020216560749888705968385627813150807919487080187993,
  16359179198438658598155755638987769554841536772865629517841526255130745409879,
  13009386603860183254204895522650012288119732961876401784040013994677688723325,
  16165167702867558446013999607792716532235725666199142971707303433269257270111,
  9526255138490973975321568846030367381138407886665647949792126204681244064012,
  11173959697998471600463637717719289778917744248391051771189332133876606070906,
  8924806383303834750473706479936998674798746387089627706877519918521882863256,
  12086306023907343271920056592137012844278234154616893254064962297944646888123,
  20523426725749375175935122656912302902564898343946638208821839160006976692150,
  5207650950010803883388912523741229153368067016192964642079270816449299041225,
  1323145474328028634780912405048390126320417262412962953050466352509016682042,
  15985641921260285694054233699922160344414776687043687582488491933807565444789,
  13031771899737217701535545098380455304311851135903656399978477292561795000214,
  12687226379083740035799525440904048416465917656850081330730343990236073218003,
  5180214195408850700722613770944601169370584228844657891855699394648642429923,
  1934847650429153525882808430984088614158092322287601778579498068360011630130,
  13221691213669397834454903625729859574410480120034103769424898865047475910400,
  7358428584159841472154153892839275459119229492180053472830555381908577651936,
  10890590867941343184378544765218808644776443230231834463183835780142311216436,
  18106794932751537043075991633023418950145862470753313409722049187095789146702,
  20653121417027117499755994750040261936029675942959877982604976723194002882577,
  14917693547715740204091617501230563717468258023142717832164274356453628117609,
  12588115399854852983923905079011727575933343603816172388719899888494451203866,
  8737187804839661132607601320524529444256555649101505512380882940221377341037,
  20181178129036534248081631452735124104458169744675071995191727629040780050092,
  11847774883596070919125373409969812806188814542338127843683622869859801757028,
  11792352762436629909341171173296810156800556812208317414203786807634354583560,
  5039046929001603921830951923781308597413960825857893817665425268295870771062,
  12894400705986579725245788498699203221654445738734999525700614560206785491732,
  791109735149055364851227398853119460170782218988367975658618461497391330160,
  9962476109282060862882002156903460806939219308562214446822701651882476052460,
  1691961422009775486402337895262889415967004356867228407841177856000156435254,
  13137802539241815005932694907183711832661205367415214501122657136334369092290,
  14887252261014844625921142022701177088174316290502741584519763408145964517832,
  4710184813279024135486906523528903891606006797755655291767343324947631364837,
  3801875732725114698561125696836343357073399124260852478317754268545097096329,
  9198233237012512530002016044631468704269680036230256629514440524866699707396,
  19696310211066978020836317292330659233588020682368119069383469865122133603780,
  3893729283153055478198590025767324126269879907832064182575052081004216821718,
  17970322286541481482483545514302125656124172449128411566036569217140609597331,
  3173691464765770821621367532348960211199783691357143005417355252781889173280,
  2243542900289123996173306626857758207765925487218044091235839910321809834188,
  9813067765525696381929832954440764980538359181380263390331469145209686852182,
  7510903347384066721813722580189668539045635640361656120910145998846374499699,
  6798424040308056706713925899327404372610976624998869962003671422212921682045,
  13151104198292309578579089832681402880200764912297978086539824832412224275732,
  2808835590734075710953411057250272995919027932824027538775542577464926767888,
  12588027297759258617444062604210692398005597744782878589643963326768133974361,
  20852428689501418456174033597851660248293428726014401905473174242849532966301,
  21296758342898944987847487225137782473520558597036376704831839057822676021941,
  17749269130031982625604134600446353874123371420684509963863640790293640598822,
  12696062143950532198094822890688877675740383270827145944853466311043725527586,
  10234631072965977425954576972633890272283449053659669736631819751429358646105,
  15090656934406651728161310654614148547687401766770336347796859883364028754099,
  20297283938807526130287519089364625872430415084303524848853727877999978340129,
  4196012712072569404315829685460688625941300450108222372646584487742105064258,
  7048902004425912498834833883033670218379565315927717075817051690008258707008,
  10997088676112427186865690409423506551772833502185768664867716439827194601092,
  16660341545280246485425051709291678711850828822636537086457121822086705580853,
  7507040282824500274626435275567162035280839409294222666356976034789594111255,
  16582934771732736721752353176711248084060824111646755305570354937871610952840,
  8438441158635690733311342509710555256926785449251473129940736660330253698675,
  5997879363655967621652122271982901641685668225243330913415373444659935275798,
  377781155818540738714095913828188470350179572448699653767572496979822660266,
  21256042944489939677834126729197446597005830228623173527229465226360970832340,
  13462424045682641929202812263623136219335301688716109209361496824976128063539,
  16369985325316675741289392258637854017776166143141100299636544614904713590628,
  19352389303901189710313048379405187204819083083443266317372096723889889111665,
  10276552469336314142974101263431204498273961662600910736694134016860746072245,
  18939965576088516958025629296747895354615121399053610843001474455787438484084,
  16990956322664851054201977827659189601868639970054898553161570861097544812211,
  9274107214677498542007885890977699632511964198928324688228114708372115109190,
  19938102848869576488504727710754065647382136279175127752338128473551869244856,
  10947279549049485525804912961584261533182913140524900494781425525696586998449,
  17561385783620224695956276284426542193322408499898012489406312644517964425011,
  18549237431132768472559432396178388563409301393950605704070488347475233640622,
  4658944912168763919889884489643908669977608714692544551960581141528777169667,
  14358732577825715965736448712278683090180078342840106686279626250756225140484,
  12281258853616996819181958497578187729715864708853144319900642420503103456870,
  4069586715276899433893814672543891090785738315323966746105563017207510306537,
  15392338154382717986608388646339008932890583126043490476751054331156284554276,
  4517279215584833397018875849825808766631742728356316383241841280072723947253,
  11495036315995422771228762992950108862694073551665420165823433137577472792783,
  3488400840286926839516544735442894876148193865245875295688572119503866691461,
  4483680161275568275540790250446502401130629200290761781427443716038558729253,
  3942379126490099533582685851970104926928015397351808560877929535138811915511,
  11401623410099323944960285754389435394954200879740972352984594598244147798394,
  1704354226179051409424294551695786920602664449209459493691051505451583669264,
  6126483205301561395856828080510799275633402498512671992649940369928504550860,
  13606061849345999397793916269931170782757704442972401347887622528829626440142,
  15164492401059698496285802476110470458129619713288710918549993367398699891422,
  3351459252264231792942138342057542378418534651418845818443384064630601195925,
  2825813294993932054460723098369264495005871082754465730530978747926493034970,
  10630213694333677464069113775948160876773011480314305970870772509710784295967,
  17166444840808098079862920467594387590120730690478215313452389257289409232274,
  15584725536763467888732670366582920601197464509911998898151204840990765872853,
  3842723796922381697995350228115144219456021393259361082360164730224542750465,
  4831891679443026612628331848829793784542170442278947325598774522135713804734,
  7600866468317146506151393588648544489445105617254544624521183070936649742997,
  10583687645778325936823793169279337717905917984785560251868239070559362307278,
  6634607933824414124502549710741812867975263049249231353927669720791801705509,
  21200609344869125199593456019818101515444150712862469998882355110348140005358,
  14361714336789127058022203168794208348007919167174968797533361168719704534209,
  1575806469795254200103212820564180016945577757735332906646132503588215912546,
  10628306906313535336091114056786842183955113155572070406112143573768388478883,
  3089301712473516586340147971264840334080312453733093398291612940108596635146,
  8645795529068430110488497380845362622141451911891312096721911200350500642213,
  16022924422796267113820566797422451700895182144910797483992348492987850640540,
  21668559624091676943635408329170173151410363888407430983622558174006481336306,
  2072754212505196807037151376956574080111414803663052483852517767215769333105,
  344312312360359816789223515659978323664333965848417356296539814750513103748,
  8220091259162471818305840126401210949950597324344081712931466340258084434570,
  8081153019090920515448830088459971939645826679918559179389404338475619307845,
  21449241241855558649730447089457892378091011965030006823417837265982774602267,
  6067510299282418337933484892144351034696356612154920492037935939636907603847,
  21026143172839641048848076059364862575379425612028621103404211601411048352556,
  6070438567473697541030303531314185338530006003062193748841965554522662407077,
  8255130291759907832990229603685682560848952190335394603030993899908706198932,
  9546680581091867708464426246566048171085730057856647964775027268282058986619,
  19031748019605060953238957886441808197649034817040423262874632275713470713752,
  17096522586030137478189913833428299115382271406265963567569748424828047092166,
  14391874539708946761001075594593462740437739522325069415219274013650732876769,
  5044944855410335767979170189040984719402886766879289090117403978287180516155,
  12039442478120524220891851909305716836138223152615593874775855237995395028479,
  3523930243951081542915282337519662387190599423550808129910485998252637662407,
  21645562630446380089971004272761942543158290220498842219097308729146973947053,
  9635476273420949200636403482900193969961822409725076345852310152023632001652,
  20108896868320980092863545615065555118659548096203643467891646750271137801454,
  9185755445384903374596265352827852278482253313517817304360514098507824628136,
  15729448650969486701474329849747687235995473855623732466626603841221282908291,
  17997496197003273211403721001065741564292124821674411166555153239941325690779,
  1543484160386036195130212436149054066156454121707864502325718576708010327712,
  16363634132599571248968010449034783328746466576733841612125967259037812456762,
  11430550344567145066773020651025090506980499195413761807852670685184554749682,
  6562474642758509619875130343887830140546824045253242049540363976665708088792,
  3689788469446976140319903688077885060368720863836266384022598571957269060684,
  946161443553297471232017467760713330784613638346698353392670707850882897488,
  17775152994890017803033120420023910950366134526347402563464114996856742054838,
  18013595561755224808896799093133992096629438550898908281663802197342115179235,
  19550347733494203322271272376490635125389454301454207200256111665786140278650,
  12387591141491143807678990173849961323772837586376210707337202980616282598236,
  15615445216195972598868146032329101929277001754848917412471279643674750521844,
  11157377570334948360516367332475698893237579888172217677485190937247699033770,
  7130958205578403403951515578418204249480908544151977781217247531796937245530,
  13077463747714835214281685128657845926832593706922024570198457201391820941874,
  20874866618752897980777992983172936086725928829995747401713185587049763764007,
  9529341163966534350579350780474173060797076273832542721772111561732792505333,
  11142469391388881243303156644691476683457853027534314004453288809998298235798,
  15759641247899199119184149872340402267600476479959598970774176792522105838715,
  4932052011278518183097054145820640615211087138945458940865038794988474891006,
  10432003521315545222242540576886148188507417318972677351911763831484066879233,
  17415623007807480250676335953220588929877876653555913668269587494499596716638,
  6058502442301803313347169632367675883843035525640290470399543491756905404121,
  4937981332834016148179351587580087161307555148093009345111656135565068163315,
  4767276541447291442260238717093680167532207332378535289044385385412677713720,
  3479278227276561004751092786681066281912177752486503430342235086646969267132,
  7943278285140068849348170498689330975011840215116541312829451500334428180149,
  17789865444817191695636689430256327163274376252861234888599341795716694863906,
  11313788642745794682263060233193097297009786646629777858110154245289610960322,
  15451318802981646436556355654707114069777551322432702430595933898879175343955,
  7517270022604650172540378758621070031306040808100514057036893386092388842581,
  10009597627594120061689516706238257978394705225993629762944338270984243419952,
  16287228641302237661911798504390175297327206600486567815634358152959586818336,
  16488249714776419229986970659608164306511103745532215897060984940903927940510,
  13354728687549843942265910857129412843774195483459170542959107134210371522923,
  5514821690255816781301952402733589181643174815400146100135235253605240813486,
  5770103106430309708547950317514210165673407448643264387718101428086149468878,
  2694023365380190286709306630457152471177911482921639231487592222438630988204,
  2596360308486910596331175398746479488324950265788021808703834738076552537175,
  9039714509260386661160667890165090643713802650277924766536703740888044388658,
  9604908742305952316295642934650340892998619318487917447839433792965436657411,
  10397877232904834686750242142278095498016920001087513253065011131758634311960,
  9647356378465005298504489726754445992380752731297711041297431711301119823740,
  2901124847048448064485279495316677205686659456282057720583010224075223188929,
  19604711253175713682339631659824057587938105276478055043815802354580551412854,
  13814073762260094871340458282144499467492241477826265605381954643255652812563,
  19191277082146641271114112092268339387374938745710902056016346575725741574791,
  4351438127825195342433511764688522108908810411430938576079426214421798123584,
  13791103210113222833666019051739255444684344392875106989928046003279497788407,
  21004705702783423413965111534445421935934565517891538415275359891592731977145,
  2271618466337144497382665490697115072125990892802659816927722507215828359501,
  17558902460062424775395394774553055038697408789830072471787389990226026812332,
  19541727150539905151936633341362726755459275099586077305409909896489919664394,
  13692791587272861333747931194991249996571271400946738920492512367046518055252,
  16261859926552105019169611795692937520291616941485096436900016176047007140288,
  13364750885171681175943985569408970262762845797040643237076315743322239541667,
  13621972138767941419375174302334978784396954063748685093059444353200957635883,
  7816366958996751828525267034982378444982423551198678280151852851213963203655,
  5387588357364980194077356588147257085032575072648295273044945567343418708153,
  5561769804258805723102666784326040807434856561620360208220095378441903055863,
  2759015372384926293713393955452664141507032820282479368223024343744582995438,
  13981134543106614704319578938205751472742054796552637642168049339888724312989,
  7990257879146478669584929211133379459065259065980981194790047745364505663434,
  11876127927930413842997415069288338406075999315865409152476435081888707100248,
  16570551097531678234333612414250188586376313376162262758608423816369347322204,
  2912142129158840181609698148893520848427743435752721748118484524307819669362,
  21302711682094568025057587941584825132522581272692339045586256377620698610739,
  12312191496853376716581371884132892074646637957572159612619070514615509157537,
  6766172753918389200603997763713298721859536050788836585740520353915599111166,
  11495484070470791342676704007304510997655718568304345126153023374072812971624,
  20811664890504244597768955277493527673608205732118233091518542968150115526854,
  16063703627762167667966504135478113457485558849729490090362731172389730931393,
  14866560644094965611504947304610358591133796414154206860995591970456047599477,
  14070826318654672995642970624813758954945583937085129314124463556918282721543,
  2479865882631638665546581282869746245766113042059506929860680221143260292935,
  17398990555602339276684995684280302899074008602689308101178965669933564447317,
  608876042484390223586509032355843816374709085426455763238940304845396291392,
  19093816648588316664468783915406437520968219066632631005915358745999525844761,
  6752057404464894771427129594636749868828376343179986455821808045648379935245,
  19888182199106435309043037013966294783272588579928340631894231065863897158437,
  10082296017960550499269875102368612265371627577709879253045116718197037435449,
  14616172738414901831631177911088055616005574740810051337096702495520738285374,
  14075121030661423148825920501776601474873747801291899275268094618775991305078,
  186569155903133115291205664388893859453551519692185893083420327670792162388,
  21299949831814715974370318270705239305629929085336938013302553408219032200083,
  10073139629403946009284887013173459030563893496973388848686052378045073830551,
  1412198475257996126786641438141729921783447169582336707894995512036569315500,
  7779964092821851708726534513875342218194584080198381624983100710844846404634,
  948257338952437735532120031007610523249359469819114853137850805544224196883,
  21258332661476723168534084283213459804574003007208501208541743948207937371185,
  3571248067320885077052671052657329120832155265049255115581589211873377624342,
  18767668432875868101830472546043294158876614861521938962321471373462978174897,
  9300839292250613795491408219504842564421473000721822643979051375966405606193,
  7064697496603343927134791624768930499810256237088252983584462738613126284623,
  11853953981626198865163123682396255427116155876021473995289924391523536239496,
  19771876990095842377875081223218001588478929046615599374496234715810020326293,
  14316898881193279100266501073998404340884941240727243537292505454856307190130,
  14519359582636080510571261582400983934670011637905562203617314435861115398211,
  15526562931305845620715599917553561556373761549853248996847605985788604583130,
  13078262487107679022841832022599167182597313495640194703513299650288211974881,
  8245559318515118189428376002847388656528865763199194533482833563489439004385,
  14003329258302578586391126522614048791257224051921678844212914592624869865893,
  11725000422609501650997806599141176528384787601555518111375908215801780233121,
  16350891150329350826705554113837971740496662498788954571303936439413078899269,
  6411076187467760129645481080704474318810486795627076355267125729971512535475,
  21018151777353913573383620107187764987866574825379316352340980146357643078382,
  11358423056150266238825561031091840555431271536659827607676154506546242135862,
  19065833030377987569441381994102534825367123386452612836837050555888073644388,
  2562667974917478689245733861669928078902565222389031120733094553006681886960,
  3471326938285931978123873023764646019622642761349433536231294291602304868485,
  2563009390241284210001442885151389460822558817932742264596703331331069807625,
  1840397005312580276560341795534676176103474806443827954038672349702326279641,
  13608853165319143662474434916965520937512197511217746962619929048696566631710,
  19629513285164329969551640449451527909298649847319347893901982383162686335860,
  15394390010333989214892827255905093646577605209323130947826658910240751517983,
  12111906652703403073758441298171362667165880553934054594322507856217299245492,
  4297972575899320549167090598678621826992022863628750628394635867928789323371,
  13452780308396674980210210234355016032880538147426066947029982271570560372078,
  2831837563806484576977992168295535809035697292555489411927347217736327891352,
  16435334356674630023459784576727565801947528558756855054741604645713144334059,
  4127342592978010203327455190780821692230702238156658795505993209368069797198,
  19169399182658468533946629204100516992531108319585640665183465573285725904462,
  8598406387986750884545663645357594697293280337319305106433909682884489291980,
  13371924317816745712309163118606793190008424593275425616115063429517298127531,
  6966840677637301630181597160079353321163372268840965853806074036299182143344,
  7360050884120437815429010939441335996325758450523147733433611465713273074289,
  18472779235592140583651215638681270421642809888489121199352426980884551699243,
  20418315222771285674269327640703205319629639584244730201946908647328012868945,
  17026399731940643956418206353642733600139323525975091345342870617418039094945,
  12615211028716399762155462346481728092959316603121559521948867446476882144221,
  12396056279980752806946158389419170236239219009894918041607073720841998512650,
  3020267183116758520311575446823726815087071183512473845404855371056317502914,
  4656542918173262538192266136796850668036544742787442489947994092170369122585,
  6651580153776746866797134628474708113133308603326248742448594405127096716435,
  11937440848975251505322944134185172341897441221500443657141975704868428110206,
  1361826966800566560222081321267933925488529241685130208478269338961124266689,
  19943953771229014728170188452413560878330164558859793245021220185499985258316,
  5000555778712004519940673290591853777960346285299451454158729230859752281548,
  8421588432304272431559534311544652626307929129739056740355326524785204863675,
  20295164315900629557422352618552527295246432971816033569783057482727719683327,
  19373368537162638225474243050103347264636555313351270279300938524044041811781,
  19301584842175411162376576546656332386749822306022512981007234449440059593206,
  10803063363791701506227503212696578672701333662552932509544627248354076467851,
  21190447586310863247879892773912245039992873717104751727825265558975676297878,
  10001943442280168315414950100438358800275893831224620600570013850341287546634,
  11419108205602584425734602189435177828356990665164795815514509894518490834107,
  9176365528060199110731574560388345526295591893454204513780413140739307927521,
  14645264015971411259428809172021065485340465742768211283864072707152051283922,
  2059680394752128527783641175137415159902594391639901766513696812385555753758,
  1362210878544210374207986445190412893419873862912439530157828224644264948744,
  1767020623225215375042202191031932704135774649037849280381750341452687445659,
  12814227243430147774278313161816717185894261558098935373927981841389635793984,
  3650392274313221017884542662769899210301363377135174682150190146413571526895,
  8605030053804448166307797789010404548793085578661466947278557642849458591843,
  16243873345435203695859375103717652101719490281058055690129195139240095336348,
  18253688126813406708458581768662237883226849901952565733241285746065046225854,
  16894577548232574374120767026426945561995165201786189772245769116072691636300,
  6423863987901820348928069732046971656713531289251833729857903917381295249467,
  2313252375346549956530493743826026444705500798866360084159932659530274395286,
  14351648867218654569586186362113600409735374191851776253843321710353903071560,
  12748602702906129786642754668169435482057869301200357523545630557138115816573,
  9709541611470508424169916733595066328177420935464065317839768365879702321494,
  7178910033786777709713498702843323736165699178795466682345863412805925816311,
  3353312211975166615897632007255179570864390972587901806985844706830647691440,
  21333017166590824659869638126407263965780255207193356400088734092911593056348,
  5028007188794597820037691911407426228966175740057746443994889279713514676932,
  10712123321028508395224612143524241532236128389312765281020405990000255535908,
  9585591632158092894254183832493550005011787447364800638915694118244958639233,
  19409055735214428219964362626158681016506721676720000843605743187110212915626,
  7013515054956821958187738653419570061640238138610196975216698509582854871893,
  14195757172805460680435532998286722310304400118130745528870652671654335152142,
  21642947172805342858920270288264451136332732954445458690700494722054302963125,
  17447291201981220908729619112892222175870413627521563259423394750686485556049,
  7142752135376494645636618098683429493620847661912582079125447091506892873792,
  11965386305718013298615263282817897360134689279593443592649060011294217114060,
  3269287439460269094755519346810063037578116295811194645623863516503159243267,
  2159120529508493457616143785556394024190164584915596617279717229000244189542,
  13216089736556667969033672749174760723927614320685905176389819791237404133418,
  5739580235677403106179902507340026453834485061930671765794215270028117113169,
  10146496637166180435280660177294964473638207568055892239396905092844948797979,
  1559489237751880726567698923572583310388557924219345825351973445625480867548,
  2596197625765120503438747432434144655985802369868414306286213301002200644404,
  9161937832793127953923149604860857118908349157525975074572071369698144813595,
  6530106539927673920262526515085998672101393587740796643755609207665748320714,
  3454043461578374982297475090824066193432500488323777575207325753404726668622,
  3344507163548616813143529013320782527939556912905450999614978312225536850079,
  3495919320773160724078129285494188621289377270658655167666727615227933095154,
  5516726577701478990891722326081439827260225708304904918582005618283443949920,
  15205180713187999862939063125387810274995561110852513151225711366795547591281,
  6648123555675422871529580981673252698816139021904779960285680145979314385726,
  15841058754930028584592543963971426098015345537516384042315342065435733026794,
  11980445534925903182700789375967305825089780148976633769394511063611931605378,
  13752792603594569707463845404055123799321888887568435005345905056744143696677,
  451907199992567080921227130990235823262116394775607208182891587168397627680,
  18806959341268394516719451015233616843300011700855654586308376758853129828525,
  11666933396513215238559883168577675591860013867821037377342211197150469047378,
  18261858072527055096686249862512380033913481610225001662137639137871862029384,
  21560391742011390943072232187892257373961479111877969400490351307926336615662,
  21610883506787217615067001898587573081135488752397283684823910785658887961932,
  8408073424459585535553155824732179764716727837637392334926567945546036849813,
  15210371269884178529776581719481988665617111145372052101377092280056914506280,
  12126920168856651470145408021353708994570254510986190646194434994722466503351,
  5069682791790920726869832051575701989172948895827442056320603681340757243410,
  5206562653380935478898854557078389821615981777078527007269200218469247241072,
  20147037355698495391549064646435751868583938479186070809834102358533096530919,
  21648765692141622487379563405180427559394486974406039602691179361899957186441,
  20151743655500786952430656789085402151537047806266385436562459773879995501836,
  5934394754413383977455838937623522376367295023125030069688154658727645145368,
  12603931706566171371403975785994747990660901389421654410200684089833302667483,
  10026374951811566765702661526223829303823304592138671853309110795200798195351,
  20990348049520375634430049514368373247447730079841716683325070058824866344618,
  21619384435032220705428130345438986008128830023896849505537357845578039663569,
  13891656325513979012692764566925054630715484836057215275096343649598208636064,
  10516755320080836193722788097986010349704472844888704193817055904209452357159,
  1187924241706018031195408222997566778745910130631759501304388015015493122577,
  18176236836230977144874543476758297865658817104610686283126581582188371550406,
  12485836949850082215229286502965907740610097753180405472080386359153328488121,
  11294821091195763819640094447903397628795163768975434879119673473115769322204,
  15235618132532149904626305329048631193060570832794115447207190941624057752196,
  5247748280389397626917162873894276536157877881047135043409628106456158304439,
  12327729816009770868743571696284061855435639336028566901611215454206952326402,
  16602949418050455338609614423670909880567257158111141482461606053345944875474,
  19481131052077011331591495382924133179323957631986844309716638852480977994007,
  14534922095860994138017014871440884145230839148117198707882202478464336849118,
  14698138249781405938575978017673685687915842935570150501408655390412744761438,
  2268825110634009232539217412695133214837154986621027045784924577498202527005,
  48564023730318244345588908855562476416102457310638224830024196372769683274,
  13911429573364091016107598756829373924944177606409768266066645212252032518222,
  3072739629129037084628601278178937800555134277149245900071628775426363271424,
  17673164704069533606602950374212967524179027652656167791832581708629862878595,
  13337993423730131992645864661190106010697884214050744564788997133642079615746,
  10864361443255322638825945640705455870794346349925711501403405779308411872877,
  12776251935559898232336391171201768361485692108948381787636663233683642720570,
  5216617488642405414264845781989153364217494006051772154230377224854279460364,
  19003202417167005941636726827739223707886908723467287344441657245420838333458,
  1782933238160323149082341139973263731861637960761110984576354403382733192508,
  14049307335094461452125704957817909153045723261672970005965857346428556786126,
  602292860913070228058919352868668861608870961459967730841598276439118039884,
  4532222937868395031497077142687900610420285824272982687191592830322532698890,
  2099811981776987988652353966067242893298763890123265819355994207644365313244,
  14963517993601358850130080519783504904964131507655857293183966569857011289997,
  5628630657751613134050345890283140633799644494629647136869171968642164797575,
  20616991532748403949152312405329497795753361035307036075488592441729795933793,
  9449735601866166994904286297362590639752895462487835902681383517319419222042,
  4855933188947772127110139132590210785552455770275991391814399396690242166773,
  5236021116842873402180213939626155398638345682608182461380158609761274518585,
  8831771317829874397651604675303149337495578376535991692269465791612651585623,
  3088758799070584868972772977513492687395394215140736055156925465547111629717,
  9647320052871832007164877116869148540664111922421469306708391658695763892785,
  13710265959446629407575266748628250489155448638018691055085275421674700880156,
  3990937300186809757319839603902135620837406120640478356311388415953195593911,
  14183797850975043036582133930342253303942122026304366900989797745492038794070,
  7977072622674677196160507229659485240881624765782396719467815964585050639939,
  19241094982310069445586766283605264689470697759972104264399773392459234417767,
  1955047691838825101723033568109446280275825112435318858983042058841632309045,
  19123726709557210987172343550395139275104840920797922301604764165695899093438,
  11017985516143054945716095457545428692165844636350104202156363406141221710733,
  6698050162913212144220380056054973138261583127187888344395668170533632399574,
  9966258961247618428931643789269822918034016436345337589754558490493039380634,
  5992044103018260979899747087179477222620402658511576502983751749529532417546,
  4323136703775346257297028867845707816483717723305960372757928628051725499745,
  21794175040927871006132858751099842549067139289302899933403157116500725993565,
  4135205477235797120209733594064542822286242795709961420067213468324705376738,
  10502424667236605030274589825431626273558506810276755098371543260305259735173,
  14846816339594032738719600614652189538461600190221870378597670293625955865265,
  2524366986896165752091070306635323844562001546653320749202855717200081979142,
  20323646694453380576115350130108187509393437723558716335846490151009228206070,
  17922328316124774235198837264790120266787900323072144966876142176581863552114,
  1182636510606531787673615350114833983759075243161678674924493347851641505038,
  3207389967170019411093119580069334588690357331504170475184259410760933425232,
  8369192092815635351510306100580533943309224255100566350954698456188479225517,
  12030967886392195699293618525716046167148513246572831396936379799444387335164,
  14022141444250217995147289887822373716179013971005541169826207913322588624137,
  1819830254074794257713310243249746692467827341614315920377358118637602832394,
  5214222934428733796770137135908910242359102117443480657729178969918179851403,
  18138416073511031005117669443972799853597050093891426716335475360173308913456,
  15787040542336098200132680028140910620950068073851656692331927514281562129727,
  821824702031897351041935750619058900741428025283533564678462466715419856156,
  13945650681120508256113693182498673378848691411623235404408416652983710360306,
  21565424898814963463657730321537398782420569248706699928677873449861325896156,
  19609389297655053996872511820224772969554473578452634334180619061868015512289,
  11052162512235765382251445485034453773059444701618444976454738201341222665559,
  12166351899911550354968692629609980749815884172876848625284742219657445788950,
  9357004866878440721090407569238169828150449366762652916034388742054494762892,
  12114234396159313460221530030197986658691629189646106573755288837341527114909,
  20697910091918282046230152102481351960195609070206375824763685775389954486953,
  21217736707553075351032987119547432929010871168087324138739787787951139001106,
  17381364776399568820088774691862728632279841729367582228657079823795538435769,
  20943148878105082737615418415826125298002846495574584317442899738454169666093,
  7269215523851335046672197634746347471983448536436098948086942864058221294848,
  11453469784625194830295468663538063129244082440999065497133984430619118688913,
  21018146386490226380790917971415394820859127890200962707883416995754459780694,
  4499764602796942905287899120539899295087557389188509075023605344029409757976,
  6253534478331781543005728896589051616547370996281199587944537185086057029207,
  11552217017582571341399470106065323830802102428782340770897703340827468796773,
  10819374663920577173719455195284609222419659549106826920462161534187158953031,
  14349899656862395011953779288216924779057701185080247070042551534943737976358,
  909510146269051589147289065017979551607491214019225341737807929286505047312,
  7822991049400510485087251716608572124487352922137650148085367861004077510787,
  725869830997965165130427627260429551001667760503255008495920045139979612999,
  16876874328062330437058858063404447748425817762641981976045186363782457609729,
  5386742002628492275210178331450945300388007254427357938003565527570148075266,
  5628231453725040085705711150750978455046683883113398227942371706440013519778,
  5207331605257641510707403983352805778295440159078505882865873548456617745902,
  10535586157456772677635305329613970037048119551546559771279117980166707049697,
  10634858349767776643334691454267563140934605084766184133586786266071708634005,
  8194830686373761187394649827049013218313677678976649876752071409303459578949,
  7100588172111463994475475315895964854310052675103208262359133193362837864219,
  12698529806569743134165801249102690453926582725077752506169518961941228191732,
  3192504222109013167359339531059877081526474219178099463731713708944911915094,
  4863002263813052668246974534880517465192842993905851311847938713684622052826,
  5692128778265216733946522388190452257048514412064102477216511313048856040820,
  10126422206202050217110361146045359045967276838268265874082659894234609632351,
  5816818864633980489627669987512782856651289984181002178349070605011354887917,
  6571596820513333489228887403836877987952738840623146829273932098108053062770,
  14089943097204317257370418561461590134190932157472606744328891293369209454647,
  15650892875459028952140088123225234819706577582764200222337535746289113550733,
  15234537030902822319330116055095343429285315370864285347784850359841976501754,
  19442144493035982963093880999374393289974808397308087180018619507528159896278,
  4787721462177588970261549242306006751465139812381940463247588627972131957846,
  21188266388402646362923963971922131649215999518682418035026104849712460470697,
  7670120618673949888866627327541465118295930474243507723982310418317698793909,
  5278076033158881738611446681468941913572289692389442858337761263328869905538,
  6812114686357362596670812436414685361641526159356770435320544521002690748983,
  14512519858142345768369977582630083215640443350401036244408402584958380156234,
  2883669043634370578290606585906686768752718215322315377961330865510599230166,
  1390031372189262099215439174834826964629551818632345640955909690959488475368,
  2621604580741170950714666893803390793334876512814103152393976192943909783864,
  16238046050182542127054230631321316896861946156551854572617517416519877517341,
  17244586605437271554745538098470023522850216211045683035769492251097903894816,
  19367233841767536085266806989570452145418274769895229567119343509637411304432,
  60922694691641059020255299196606231058588207683679919735176896931621476211,
  11404572340596870708576661187798839793333697334049619025922813709736021654992,
  19297195320049214749532857744175644917624562154332216539771469808458364580570,
  20000477679980055675786972902810034261882771620364631737011618258163102706803,
  5145215345848317594229128468995966108988375785838942899274867896011577909800,
  12745405048448113216886186019434813760835051470566703617056298583393105029140,
  6134671602520394562619244398452258969460576801019889394876295515660617122846,
  4914589878992627637690178006894707570950584383330674027731006564533772285206,
  12220903700447451099363813812957915640017509928028867600267100643383476677026,
  11628588304761135026225316417404056298817057087404654319307918387873030085506,
  17423007615206678675839176821651284038190814226425327926691523730687305701329,
  8965704645750924279210398083172931641857031322145961884520939048845530423732,
  20213900813945518409362660921232075042618186257655700796304283970465683248159,
  14023473417795456589963878717505287517669917599805973068283274798230783465678,
  9113725901633633321816296721315176702107873006937820201651085782607150391484,
  548172112211359610960958872299753762974328909291797522208085351481742658142,
  21706861375052844683595820457538688901531393763031119579322611763049792865067,
  12400834297098033195346480176669546452877127463842848395269580039592533946307,
  18693408652472113120418656602007998722418946699666834214243410738193362834090,
  5734025542584829419095063290697837279993460564092839068131370421231150830964,
  18924630076511631254945042871273344212804227110396594419618744375738473997458,
  21814215076304113439159605823570645338718666334965210428557308969012775849083,
  15874497347478704100595228569012157674761828758432798819588001847304550645894,
  15630701992043410338260010633128892269216736379332650587736588580296378591400,
  21182316539430719202319661920312710080481096926576230463259085025268931402724,
  13427632056110349253603837202352903590918428276805663374267217475392463207302,
  10911219508671048309975190269088900191221091803425594935965400900508004506426,
  9158857576095512666804740759126852985161480036845995629848333137432364744220,
  3061727900948996735547324485012991687515955796128872254459502313385493651603,
  9484087600338383596528641950981362023967545451847364854943599173866192324557,
  15244438304843092101886329998640757457334825678432810119480500702489267475870,
  966872391220567196912397735096848312956568724961332613947113843660023937964,
  11463695793311663093741054432425795718511021724948561649345772770204331282701,
  4301779131461344863695073848029046722184482171568650483218315300688393400530,
  503085225024315480816360605760267420357374543116157267432728664696709665901,
  2152733644489285468694016160698899213530839938744988003049661235638107035210,
  15311799268435674361916200869320882308334015315600749428161144697607223747926,
  8821276262247279528293843357774532114304424863546634692022624148120506964899,
  15012215707563410212327951685975753138452396938302623171526151974041926043490,
  3832600555460338220245921307060619972944914111584149730708347861160918312276,
  4945512356937128186743764272299580525076021077689098424357488427223926571902,
  6352619611110096346414873193740535134097751304211531527845737802795592283759,
  10487432688972604512516548109465855881572886261854521534610720416206960307854,
  17622489873780167264774227253975567347204222125869234241462457566132215071928,
  7633353550826098030742486107449393642153730338494606903118637850284315354119,
  14024635247358847977026819464107185157647377185834445176147145227141238505750,
  3839080266490755896783758766005919524636645447105234209420661161997449147283,
  14295400414627547924873035695592309131547135626435254888679625991957098691157,
  9699346383521400413122931609905328425995515996718354291677850659748262244552,
  15892775179188924258683368801772704553840476123482448500492733919344870447160,
  20199645131225911044918007618559374867899861460760047877106143132248914945273,
  12001320852019564045161245401305456578767647373680507608908849898281736831048,
  14109337051994798438391426281455499687696832970217465295841248395157195678143,
  16327788711327335703187954019173408665382603544801329348791567767829649582022,
  14165345295389244679058422302892574411018017024852263235622041585515310700440,
  18098328140605761490641355018350075852862336947591383947449899194910504851997,
  17531934292095415392849417096338882004139134123682574245576387314018394586354,
  1733676683546726275638177172968959379163822515869952716090548401850898249951,
  15390925956113897743988821133394062442365524479421281886945584164621467664839,
  6308234777769318028945248133710542338224131559387923000379414195599812605031,
  18195940437872982705964842501287028751711989848794835251153117845868361639502,
  17490283477945958076039190253339223109810835246475119772790163703167194121322,
  15408396829836728115954873718864748500411741345264521674331031030247235075214,
  3551438511462216897614311415123740632223550882497302889988823516019801455881,
  1211190935634033568807015118513121103447278874630092924424376539010769615279,
  17406162668797550222384115208538224445727151774389004540678231208053715695274,
  20479453675762626017106163313206256229631927324901802475043478933123265498282,
  14782425647559744167182627327791886056751281195680302914811546501028210982186,
  925131908338441634745517290354664216337826881101842522634123686010539186420,
  8849707997196192490777875561563208206085973382242717199438345627124299133090,
  2076454320990941741925816538401596397546951763404696804371822796867698785368,
  17173134576726258494214130646402838956462459094351663199002055284799185636563,
  8278507153110957550422039807446721030659313329793830361362606551912544734153,
  21454855413436031867439010732150284197408206511012140387650556740240705522088,
  8938141846612216610282603832016394896549074914747256157702516831379429923666,
  3753004427655295864092888874901033504634515083469621309422669489429783662244,
  2366435134561993720630980767268361780485124472309182242565985427615594260755,
  16165357231356434631067514709216775568766632800191759830231349057343507534434,
  19619001519241758891959372143573350428188652312535228885075978087065138604446,
  18529730720102625006097708392875275467779439015225330756494090875760858662324,
  5652897308997297007169294392190006281027830654965418415676327691132517009477,
  13575260089385236342970650047136574844156206796954949409405285738862382638131,
  13051488122183433321152129519814259420249179451391427892934958106760313757814,
  16675947070785780493219656951197382898525312482169747446344506906972920892954,
  7175175603774065686796811506353067100604576034944842446058484596637779839013,
  1400986416499873501628131339252214540318552035055662222249409246587339999877,
  3464466866466806017745751012761954006390229805750136348643137486103734148919,
  18217858987033907489494644734206558680641423556261333390037659204834788684410,
  8406086726746620686898224574302006639796660679494669881199476338693847188630,
  17762341698784805474670945153199304225802481228485479435097247827908738620552,
  6223712186181276291315191942450380783893133091457934083606193355728586611122,
  4282900419919891825156385371067226030543529098387005106356966928605004273721,
  21245665052422749020204481966374990873300815343268950998971123603215733315757,
  6982432590923765268313576400153302843651774940912624901824133236148956994132,
  14604328114465343527250129263480156133215257207190011581958944554537477242146,
  4419171346687102376610201013900704798965178967312178557853149472731770706501,
  13245918223750947891398096117311260221538002135539665270124077712098715822692,
  3347693769680689230259648405537595614327886881079646330652620517715295020391,
  11097962153704048182055796266608903112109780112107618586656031611021161690259,
  103842991820173997936966388104541957651469231887516072360536421395334472158,
  10458487052445928020397135451416595147106158179032040258831628955988702925482,
  10900270612365580629478084761129851570116267768979394602611763172198923647648,
  9903203205178879991225339006690459919299342990467545909511182892622541268992,
  7206476963459461034052924246171589839665793743462578906114104789862742647145,
  6264046538214382166095990603552597379083154170591970728068583459736905241469,
  15208506074912456921421298757607137779904668310165212805848069781063650192568,
  14399898497646210477881830976333295219807765057833256267205543494652425724063,
  14270878504405431259159385066097540588788179903719271466546150744452837482681,
  2299469207691207005105135549235035285287116575059039549352935321891742095084,
  16821622844104951063765780536072686283845403348056960050391910562149383647957,
  9956020421344380373447956054462292461416421439742573500231969663699680679093,
  15930825774426452340437887971015387876460967360948156787859264923789690195070,
  10985728214199775151782154608793108221074450547445302100877022826701613291080,
  11760641126739413999815391346325702178866867588284525333479386263279622799779,
  12964764722311909921385583909124655151898642200440943348322605636391779313939,
  18379853927966213921019716164768637873544788239921704156188954474082485441441,
  15296912762863693782000299085702814599512114536531293086824435743573000852798,
  11055306663322542945964813101077231103838051414460193023274311763885249453027,
  8057951225246999526336336507654165264870114340865557474750852826611325059180,
  7217454204491887928591297314854022623729750971598154127245160014826014134117,
  14565102336180706753392276751790538414003260023904084675564779334184014612773,
  16932806574869520697162166869588187543526028859439455500295852309668070598166,
  9179898117866495045233038402762881324885778157159220317172535561846474551689,
  18779105085403868166483619694881906385652758088668461143173550878413116028260,
  11214136111470281555815079365242861297786837712776840366750250043823307862209,
  11442992999493383524983810131599863922453401327420664873617599429059754849857,
  16271323289864628346209913310699661044288655850612550590359075955707090062050,
  17108025350334840622180169650569770852833940341473970170517727066627050749958,
  13146248878892216294361188166665572028549000139712229260161108594416711673870,
  11427372820077962289622241022478467149286157602797953190515658164839928300751,
  893014835995617411380095483743111031917691099253220683676712243294883268295,
  8517095300100078150575343693630592663417209558229239005971749331683768522616,
  17927627171733468726764817859266182414919024487868681391571481635385817509424,
  2910874756516541331498135086483127887295864033618596807255973264881493597680,
  10351245804237587891981133156579115865490473264567370459691707360959684413970,
  12694211070090545997357986982035119982901819345677093614248046140600061957940,
  20283022323110075954579979019632104756139185475301167929737027848763705068147,
  15931844873010780159923673780071721836876296130477744289335217834580073984287,
  21827223850924748993974869213271539530659373002293617263857321497283795014386,
  2216130285102621170883691491664557599377015082391517585865064633069426967470,
  11373405503815639839270612384753272139664561558477978654573651197371057815151,
  12313875735580427829620793313088533328915412934622924938520740599744871213525,
  15142465061035421304605695594042142745567585293979295525147576522422528415408,
  19911123862342914329674984568751978176595422003509172434076759943963715219260,
  14262659769499978824697304563726231560538953195673261355416096174585413608681,
  14610683638141173050828300939153196590488444327501938863403192781649951814095,
  6637311287977459850936997036417480664822288091481538821362996372726159029429,
  15501657635921439788956110615190078759397404083654787694613599184616807587119,
  12415917438013473637314666005336278137449129158908612828862230927356476129214,
  3977073659694868689017260754925680384676839395821102222683036599314487912596,
  18021973030966989893231530982789547568199608264409750239459349680822956679629,
  4358661372125150502295103743733014495017362384424029473164385391234779773434,
  12150574573348685676904261170022340625206210894206500162919624199154445311926,
  19059564947466261856206182248882637129860510906425942015878496836349348075264,
  457803388293300831659933030795457353247367081441494540658944608302089214573,
  5212046878650303869536834084593989055518385481488493726863247051727387374999,
  10866963984944634834508529257930003255650324224099527428753028080514409460102,
  1567398629202166035061920213544077752133493577343656913517034032663760331227,
  1641623291671542299150077964313362112100008772415510478337935841080756871031,
  1814807183609065925468700221459835599229505862471630844515076416397596161921,
  18676591284813153230980779135662585498854259214169962891045023401932640144792,
  14582715392475730800118541203172619815507444658499922254753619352141615271717,
  5971201190012257917828174333108220091030383280212145099110362036705465802488,
  9745736062659480171553506036948675113562718355498342585124081392171087285152,
  20654605762814031873434196876396785695406369410937473580199071780191334325949,
  11844011087342569590330041590202444612516395732736950853259915342942395929104,
  12960729918447154570349545809398065983315955190065107446283057843674060399978,
  1912969365260456210218541172655492769437123937988143458973053151759348812779,
  6751278463897225433246228986310134589363747158535699169746372748837067912354,
  1405433090804402720301319240257714728362644500702704160642087476923303165683,
  17334203531491537592342457272578981899701055200802551766264091441355104806736,
  16575765689548766530893504204590870417122916172019674976779799591211403721688,
  12220976854598379181285138460526335801169364473128100040253401652070229420610,
  18565358629024373944198152078259356971563125515748886809957420832630624111647,
  18999218340435052500780578040305741910732238048488832712380773170203478504280,
  828469997232485965462944215365058139980461203417902215718115878220834198655,
  2385864265255813442011864217087321326832147642514277043179825610035123479208,
  11753087538734344167619786844012793078263845468062416000491296071906848786208,
  15297341509659920002867070368227904487875907462849401568145592054120947559782,
  17451904737564664855895845058410281315610351460549944647244100267528838462231,
  16288687708586503845827496209229686543350756101251970070831852982828263987682,
  17372190154611010904681208309570706747429785600046317069452832284803213135091,
  15112572862198958048036722322696004521384539985617885597335257056722713402392,
  3090030985871039557449539908126365491166718509536148045184016492804246563853,
  7579986120189318071341140006570025802626137718385790787108832330451957404666,
  4656625991418301006397045145531617124589866163929416672123076523538862286851,
  19496020801558863926434816068743011465607626373023757648812447085667986307007,
  13805329389975072362759970417944582121050551902725997016013251740633448473430,
  18188229086122124131780255528737492392822604407289151260248713532509782736083,
  14611835504502434276576475613524726992333885650957002636192032800434268523844,
  10917400920268125157880112072188560060076995206390296416305594303287585051306,
  13972231301490257961012583958703459454850999751676553092417436936263553366685,
  18328503113772388769765260234570641415081417900145352728842854263561232438288,
  237123037398988309289930744284813441581716633481073379308753775064025864085,
  1703922543704124573472350868371820728886443372137290454699485327716109471338,
  11303106151640297276547682977648977961130813769323129464984120148868796657869,
  780835119818217499025356174332702814577120774118181250962295467182217505278,
  7513776436281774240010548782707301011961852707217067098086617267751060890346,
  7053386733865795782344919942070418964042982090173077686333893187474076408826,
  15388377229685250353999590264475768848666849601695837177100149716633411294502,
  18619784384287698574679414094727959444475916860934398666937358687019863556637,
  6843956467116800550015577789758902600855297665349663446001269088726857226048,
  15027464760260005079316932218316611292633334115528481474392667994765319146064,
  3113497944921123135464097580210634621999169473508798646842600013742294203321,
  13922875552185745353363519166943408041900501129716418917715862175817917028807,
  6529143033058355347608548436453630783222625692384446386966623567146527415664,
  10224300829854530831381318053279338710395220281107133842738514322747972858570,
  20406735123273907201110501114056492687992916259913310564107896450511212255632,
  14266011897697023567365526625467367950062937074006135166584691625548787309637,
  6266823350995327247595338658995148275348018579417278062676982980758032485160,
  13382224019010393958018966744541120649420499028243672845532376433487586111361,
  17219221786488657036851893458562210759167416100910882352030211878162886142909,
  20162856829897101788693886235042939518715128237037117615656868509223185121680,
  19255871117980259796107225408238738190418971755264416661458453217281817348088,
  14978990393744959794726413403754476561984809686673856442658550453303982912228,
  19671827853594912540136789344716532059747421261482796306917878259275666282337,
  10732390517629598846596313835253769945253387192277550975463036830136687386844,
  17133415435299159639005309603217597288690767318016826234871049396559867937550,
  4238294829801619171082019239832000810131476156600856298143082034448277968560,
  7722327574874647121890494265704613777043492303801725732359520952354380593844,
  12398521387704975769381094211621106917110829744392349946808293674617176531795,
  11200776058775831613393435187103560072186926574904464246036376746754002391683,
  1438209332219971409989076556134294085612745796338690516891328286502107803440,
  2937570830929161760131625263024599999319751748792625900610926821498514203833,
  11043761204766219739712866580984621876221567501998807492499956572251345283273,
  17161703263657344245212174231645949667297741070344916641526821962829393621412,
  18619070492541478298708071132730313137437250499943292747935022132254737182602,
  8379242582671699656964937417808578910591927550726975853520669689659712748923,
  4461581878275014470922963327129159901508275066328903674248853463321568123734,
  8814779309876923204577653695802478749454337142645142889405691969158642344463,
  5916090197404556150255058868159426544438846565532168821258584401868379000295,
  13450130187167769463125976820336122102195298233114472585228206936434118870547,
  16312137321831916960674847439149202523298938366384118998520447019250845846949,
  3523905992883153108179926090860559860264215076129040324355490516029055984441,
  9941544263434232818617581658227915119072214833223636007382930887032695504069,
  5866421591020072450638507367259603444231034674337808358938713064987239652864
]

/-- MDS matrix for the BN254 Poseidon instance with state width t = 11. -/
def poseidonM11 : List (List Nat) := [
  [1098498142837982582047608372723518751721607512716925277273595859756333857326,
    498382712248562027578374863343601618793781182132084383060312181008958381971,
    19040726265283429618662679510157690394832296024968480927415996691029230011306,
    10367579130776133414495805974535693744211249758950881275217429221792836643614,
    1229596364469449066712193908302977020022727834238778132871229393863406546866,
    5594347757215876411130934611555467571639435097442631641074898978663329410864,
    625275312666547608222628560378372315159605662141936411119837279426221363981,
    15485529557721639677666143827295121022852505628489596851713462276650737776670,
    12156576509577081554587930818670905775536581975823788207855134544267814269606,
    1981640929928975005466842670997136169304057407742291166386016130552621471939,
    9375079124430521740651903984797221620963928972304905809259607327125669559872],
  [268697279437287801043057266739136500465135819021738115532631740070584831216,
    9310725094036396036773344350803037792624399505581573214229419814378683970851,
    6144934044671205976376028664002834283864020049596457260475210339996948797436,
    4985941506647510031967748765284991041503308370910665002557248958100799063851,
    15851062719909725150709309168582658649310704358483047683106225599004779349418,
    9869770840966008659377598457679699092337106962689936558150689057592239644963,
    4964286354328869036674130011248598806906438908586967212984901377099285878228,
    13408525694456518383125684465410538061086669117275911801498275369395798296201,
    18263306792332242197764383101132914152275840410710698264525919817458731671889,
    10401786441956087930118823951510684636068781082958380915651220354850381871543,
    12496745101887166473879957440401384727148915595227764657145046356182346897947],
  [56825204182651219072479187681186238157981743937496557304633023935549648224,
    7949519580094467639897040111470236633243836928348452962417270559805860514707,
    3509286722306670968352119363633866055096352721394520084890481975258162907251,
    21359945526252146173553061920944871506626324563977081669248710516265311530589,
    14649491209868365229844087258057697734286269047837985905275053819765825128984,
    12122186136173879572357400046587658543826161883897136171993927935307093999926,
    2666476328185593105035429309804341325262753927547102747066987631391232293139,
    21005241858197204874543384881533661499138265185107903730534607574687765896488,
    4866331653274711303641000079325074227730641553230218424779550288347820225149,
    938689939079340009195180604139206414955240264736983491692686499992823741696,
    950493909161345219342597929783079468041198261349024441783356363638640688155],
  [8227093387774305505218050843028014038423742476679149203160700406235271548925,
    298899716277443866412562171123535849674476895336539413683307522836440058745,
    6985094123716229565713211140430519589886023406928617334981414752732877292051,
    4561102873171162160916461632027561255705058072826965137552144392802414262261,
    15422356128912397775473168682864290042256748428952418907369066530964035265216,
    21534011877473706794700774934355764894917955655606512952257743854629820348396,
    9461908500272520643111839486963426035162115487175673718316249722520977894185,
    9042969964854694648113546554619141983055960736166619708191725199599555275062,
    1441104948831954255692318866730011748129225465895791664253095290347818907280,
    19417400621113450826458192671383621002793369580946623762558060167661227354799,
    8244773274459817591888745631242804467035454174608673362960589130536385507190],
  [17088086767144106377842029064730946925009348520592888187451688601493882340857,
    12886019902209719236096958359125451092745638766392722988311451127550961945660,
    20280862819329644063010032903732505647194710429034928708829957501178343790858,
    13239701144341900586601825324587185682073736334523805955933121583949546821724,
    2994618864933374534869864629648211464657674590007913715843569952783382900518,
    3072221011986428615228338853345294533299624086589539664037325300531050793357,
    13594276105600327401961157952766116939399999497643063180657161489419638074478,
    12904364780884039213184464580277965622079185353283126471569179129906875486852,
    15088962493677593800057541234990587773412340265413268221386103386021880406010,
    14138285403526705785804535000245522290348086552790608567368815987904186155718,
    13481415964846572771441311017814910258609608797603836070350286657768815710822],
  [15459769479990273742477151452466966963353767555965255520456901549474045452607,
    8586052864861352028352866296665876117392195296860481710367953704812400661703,
    180502622991267551120688532508657597773982647209049478186474242637299204110,
    4785745751361586866577727263713743688205421961646731269452058881240942369409,
    4583871856798894230250707953295146343968130822948818555994825096960225600041,
    12377924729639905725281972784629126900954187435957722012223715002490809152047,
    21554415644278070156493674075483844873249829791940344144484983897474364915950,
    8390225843490125870104241611355504124284851919520955291024552578484662824128,
    2330476067094130593913781764168287559468546989640021387799865123741354870445,
    15749497374252464770935521609391859230015300749964554524771184068776070217841,
    16817654103281917947623051388088441309787140809596505043937473012669498321704],
  [9987656178378986905964646161927549614205785047077068310684205046327286932204,
    21450061958292240283686535241652971764195183478875921481624114699420928365160,
    3904617432242099936494425054740854886663050476318725032541401300619628714123,
    21454964104289781104446533610149551385791852085041524046710270949744081353102,
    10768409462143965702783360646769759623397882338491564999208626639994081655791,
    19385613828688830964519526099114207553837496617978489639408163709100497624509,
    9385292780799468553063371906778802189174789542685475364513544798199315486080,
    19882577122462819381545089778080532575686772634821281258975533828284349988146,
    1462201549484596350490921057903425036211202388283463006651220816599917679116,
    16564642856725628254155356607086672564976261497486137590399143770170930986182,
    11606470848655267736219046910932382494518380844147406842964119623341701511194],
  [546921055225672463086391798419385468083264065960104350335293012629066408625,
    12676737821548820987278730174038033161886561534502963159950183188070064038340,
    16429180804851559661054910451008618941371882312211198495282444364589225325606,
    8318514508896823373027050528521007144041407638548138855564062559664141902892,
    18546910687432012966956995548470714600618104024117576926439677823609854961263,
    12006683905722730408249989907056432037202625403043550391187503858618155798348,
    10816814135685807143320832554644398181525372167669730953193258726693903362148,
    1969445073620598650457101028079888612893685228913473332116076918643068711808,
    16873795316557869761040796336264749169213884122126281483001377666183529927793,
    8441268321647668856014389726368355391497206989491787976537908376817970369132,
    3378086906271763133245748026584767009750550242946195995254881868035794898559],
  [12721353531573613369892164015903035636498816100971168742462654106875931342664,
    14969430369156214890953989610124286618925370029259450629468188666450865580556,
    8545723361883060050915916338313252821252873299513393695440138873537985282439,
    947668284380905375962163908708231363459059635485281084900173592739603282382,
    4418352807772484492818068921024797225893951828921880350002134747344565378254,
    18146914067008843660990756743559427698617136456156926109157771781314720068545,
    2353279078725994188579023195684884389261433430819033940093641668202046052763,
    18228226015329570627220992288018909552101992748538110505558715089403194764144,
    2251557590571495628913478692960173580728135227602564510397207128937882297417,
    20421664597091787362209209474226188711714308866665750343509458297343168321800,
    8187951594294388715811532560312339537604737243977265499957088579012554679278],
  [15810834190411667509425096842396102750984990364193499272150958331088983323159,
    16884308240478579935994044823717491481297317573500280152191710196639752382061,
    234497484353824748419812158321111328486478789224631887096763967543932891899,
    21452418791072076854500976656696245147472896609273403517249960331326136475572,
    10860322289080285812992522532751459911253736747190334349942615321085283282595,
    149826608572716492570322179195234088797160854886751475825283168005807771516,
    11491761442863092383423796629001188933840969144934642247702733820824608517603,
    12099180244453415217270377899736157198045626379801787493348249001794558732373,
    13177983303979037999809722097100345612970493007300007493855625634642663397908,
    6849052800275826145043024580348093078809773712986428314364827674907764829568,
    21486255029472594818259653174918852363002807142725698741685253190938680807594],
  [11451503340703054732459437884000132607423536025797075877436151438425159994269,
    8462539135531767509735697608276067216182907546891182278996691315801807234639,
    19944711893825824667372913293784300313762563232409638194240029859435259601775,
    10396631238556297232793544122243237485091433966091043100758266678889110827200,
    20667999270580360504376758654763163152764187226267414436968564661080084475852,
    10424436665500877000658892169756884171624649701456443210945810183301667922053,
    13894422482417998868290238401966517700776990643618129177567797594771207188055,
    9076475964444407787992938909179730031379198268423789105813333967195259669658,
    20479003631920854685589262232015009286810147171298477411667705150903826855301,
    9928015403359312830073752955992978705151208358029077246413002475277600546387,
    13981618256931763962905358530247354996931923386029793318275706908114940457317]
]
/-- The poseidon-lite `poseidon2` primitive (arity 2, t = 3, 57 partial
rounds). -/
def poseidon2 (inputs : List Nat) : Nat := poseidonPerm 57 poseidonC3 poseidonM3 inputs

/-- The poseidon-lite `poseidon10` primitive (arity 10, t = 11, 66 partial
rounds). -/
def poseidon10 (inputs : List Nat) : Nat := poseidonPerm 66 poseidonC11 poseidonM11 inputs

/-- The table `poseidonHashFunctions` of `poseidon.ts`, abstractly: a
family of primitive hash functions indexed by arity. The source imports
the sixteen per-arity functions from poseidon-lite; the theorems below
quantify over the family and pin the arities they actually evaluate to the
concrete instances `poseidon2` and `poseidon10` above. -/
abbrev PoseidonPrims := Nat → List Nat → Nat

/-- Error values of the embedded TypeScript; each constructor corresponds
to one JS exception site (or to non-termination, for `hashNoFuel`). -/
inductive ZKErr where
  /-- the `poseidonHash` recursion never reaches a base case
  (JS: unbounded recursion, `RangeError: Maximum call stack size exceeded`). -/
  | hashNoFuel
  /-- the `poseidonHash` throw `Unable to hash a vector of length n` for `n > 32`. -/
  | hashArity (n : Nat)
  /-- an `Array(n)` allocation with negative `n`
  (JS `RangeError: Invalid array length`). -/
  | negArrayLength
  /-- a `BigInt('0b')` parse of an empty binary literal (JS `SyntaxError`). -/
  | emptyBigNumber
  /-- the jose `decodeJwt` call failed (malformed JWT). -/
  | decodeJwtFailed
  /-- the `JSON.parse` of the decoded JWT header failed. -/
  | parseHeaderFailed
  /-- the JWT has fewer than three dot-separated segments, so
  `decodeBase64(data[2])` receives `undefined` and throws. -/
  | jwtShape
  /-- the `getModulus` throw `Modulus not found`. -/
  | modulusNotFound
  /-- the `hexToU8a` call rejected a malformed hex string. -/
  | invalidHex
  /-- the `Ed25519PublicKey` constructor rejected a key that is not 32 bytes. -/
  | invalidKeySize
  /-- a JWT payload claim accessed with the `!` assertion was `undefined`,
  so downstream string operations threw a `TypeError`. -/
  | undefinedClaim
  /-- a `BigInt(string)` parse of a non-numeric string (JS `SyntaxError`). -/
  | invalidDecimal
  /-- the `decodeBase64Url` call rejected its input. -/
  | invalidBase64
deriving DecidableEq

deriving instance DecidableEq for Except

/-- The `poseidonHash` dispatcher of `poseidon.ts`, with explicit fuel for
its self-recursion. `poseidonHashFunctions[inputs.length - 1]` is defined
exactly for arities 1..16 (JS index `-1` yields `undefined`); otherwise,
for length at most 32 — including length 0 — the function recurses on the
two halves, and beyond 32 it throws. -/
def poseidonHashGo (prims : PoseidonPrims) : Nat → List Nat → Except ZKErr Nat
  | 0, _ => .error .hashNoFuel
  | f + 1, inputs =>
    if 1 ≤ inputs.length ∧ inputs.length ≤ 16 then
      .ok (prims inputs.length inputs)
    else if inputs.length ≤ 32 then do
      let midPoint := inputs.length / 2
      let hash1 ← poseidonHashGo prims f (inputs.take midPoint)
      let hash2 ← poseidonHashGo prims f (inputs.drop midPoint)
      poseidonHashGo prims f [hash1, hash2]
    else .error (.hashArity inputs.length)

/-- The `poseidonHash` entry point of `poseidon.ts`. The fuel
`inputs.length + 1` is sufficient for every terminating run of the source
(lengths 1..32 recurse at most once into halves of length at most 16). -/
def poseidonHash (prims : PoseidonPrims) (inputs : List Nat) : Except ZKErr Nat :=
  poseidonHashGo prims (inputs.length + 1) inputs

/-- Little-endian bit list of `n` (least significant bit first), with
structural fuel; fuel `n` suffices. -/
def bitsLEGo : Nat → Nat → List Nat
  | _, 0 => []
  | 0, _ + 1 => []
  | f + 1, n + 1 => (n + 1) % 2 :: bitsLEGo f ((n + 1) / 2)

/-- `n.toString(2)` as a big-endian list of bits; `0` renders as `[0]`. -/
def bitsBE (n : Nat) : List Nat :=
  if n = 0 then [0] else (bitsLEGo n n).reverse

/-- `padStart(w, '0')` on a digit list: prepend zeros up to width `w`
(no-op when the list is already at least `w` long). -/
def padStartZeros (w : Nat) (l : List Nat) : List Nat :=
  List.replicate (w - listLen l) 0 ++ l

/-- Tail-recursive big-endian bit accumulation with an eagerly forced
accumulator; equal to `l.foldl (fun acc b => 2 * acc + b) acc` — see
`bitsValueBEGo_eq`. -/
def bitsValueBEGo : List Nat → Nat → Nat
  | [], acc => acc
  | b :: l, 0 => bitsValueBEGo l (2 * 0 + b)
  | b :: l, acc + 1 => bitsValueBEGo l (2 * (acc + 1) + b)

/-- The numeric value of a big-endian digit list of bits — the number a JS
binary string literal denotes. -/
def bitsValueBE (l : List Nat) : Nat := bitsValueBEGo l 0

/-- `getBigNumber` of `convert.ts`: render each byte in binary padded to 8
bits, concatenate, and read back with `BigInt('0b' + ...)`; the empty byte
list throws (JS `SyntaxError` on `BigInt('0b')`). -/
def getBigNumber (data : List Nat) : Except ZKErr Nat :=
  let bits := (data.map fun m => padStartZeros 8 (bitsBE m)).flatten
  if bits.isEmpty then .error .emptyBigNumber
  else .ok (bitsValueBE bits)

/-- `convertAsciiToBigIntLE` of `convert.ts`: `Σ values[i] · 2^(base·i)`.
The source uses `Array.prototype.reduce` with no initial value, which
coincides with this fold on the non-empty lists it is applied to. -/
def convertAsciiToBigIntLE (base : Nat) (values : List Nat) : Nat :=
  values.foldr (fun v acc => v + 2 ^ base * acc) 0

/-- `getLimbs` of `convert.ts`: big-endian binary digits of `num`, padded
with `padStart` to a multiple of `base`, chunked into `base`-bit groups
(big-endian), each group read as a number, and the group list reversed to
little-endian limb order. -/
def getLimbs (base : Nat) (num : Nat) : List Nat :=
  let binary := bitsBE num
  let padLength := ((listLen binary + base - 1) / base) * base
  let rem2 := (chunkList (padStartZeros padLength binary) base).map bitsValueBE
  rem2.reverse

/-- `convertArrayToBinary` of `convert.ts`: reverse the little-endian
digit array to big-endian, render each digit in binary padded to `inBase`
bits, and concatenate. -/
def convertArrayToBinary (valuesLE : List Nat) (inBase : Nat) : List Nat :=
  (valuesLE.reverse.map fun v => padStartZeros inBase (bitsBE v)).flatten

/-- `convertBase` of `convert.ts`: build the big-endian binary string,
reverse it to little-endian bit order, chunk by `outBase`, evaluate each
chunk as a little-endian bit group, and reverse the resulting digit list —
so the returned digit list is in big-endian digit order. -/
def convertBase (inArrayLE : List Nat) (inBase outBase : Nat) : List Nat :=
  let binaryValue := convertArrayToBinary inArrayLE inBase
  let binaryValueLE := binaryValue.reverse
  let chunks := chunkList binaryValueLE outBase
  (chunks.map fun c => convertAsciiToBigIntLE 1 c).reverse

/-- `getPaddedBase64Ascii` of `convert.ts`: the char codes of the string,
right-padded with `paddingValue` up to `length`; a `length` below the
string length throws (JS `Array` of negative length). -/
def getPaddedBase64Ascii (base64 : String) (length : Nat) (paddingValue : Nat) :
    Except ZKErr (List Nat) :=
  if length < base64.length then .error .negArrayLength
  else .ok (base64.data.map Char.toNat ++ List.replicate (length - base64.length) paddingValue)

/-- `padArray` of `convert.ts`: right-pad with `paddingValue` up to `len`;
a `len` below the array length throws (JS `Array` of negative length). -/
def padArray (arr : List Nat) (len : Nat) (paddingValue : Nat) : Except ZKErr (List Nat) :=
  if len < arr.length then .error .negArrayLength
  else .ok (arr ++ List.replicate (len - arr.length) paddingValue)

/-- `hashStringToField` of `convert.ts`: ASCII-pad the string to
`paddingLength`, reverse, and convert from base `2^inBase` digits to base
`2^outBase` digits. -/
def hashStringToField (value : String) (paddingLength inBase outBase : Nat) :
    Except ZKErr (List Nat) := do
  let asciiBe ← getPaddedBase64Ascii value paddingLength 0
  .ok (convertBase asciiBe.reverse inBase outBase)

/-- `hashArrayToField` of `convert.ts` (the in-place `reverse` of the
freshly mapped JS array becomes a pure `List.reverse`). -/
def hashArrayToField (valueBE : List Nat) (inBase outBase : Nat) : List Nat :=
  convertBase valueBE.reverse inBase outBase

/-- Helper for `jsSplitDot`: split a character list at every dot. -/
def splitOnDotGo : List Char → List Char → List String
  | [], acc => [String.mk acc.reverse]
  | c :: t, acc =>
    if c = '.' then String.mk acc.reverse :: splitOnDotGo t []
    else splitOnDotGo t (c :: acc)

/-- JS `String.prototype.split('.')` (agrees with Lean's `String.splitOn`
on the dot separator; defined structurally so that it evaluates in the
kernel). -/
def jsSplitDot (s : String) : List String := splitOnDotGo s.data []

/-- Result record of `getUnsignedPaddedJWT`. -/
structure UnsignedPaddedJWT where
  paddedUnsignedJwt : List Nat
  payloadLen : Nat
  numSha2Blocks : Nat
  payloadStartIndex : Nat
deriving DecidableEq

/-- `getUnsignedPaddedJWT` of `convert.ts`: the SHA-256-style padding of
the ASCII bits of `header_b64 + "." + payload_b64`. The zero-fill count is
`512 - 64 - (bits.length % 512)` computed after the `1` bit is appended;
when that count is negative the JS source throws
(`Array` of negative length) instead of padding into an extra block.
JS detail: when the JWT has no dot, `jwtArray[1]` is `undefined` and
string concatenation coerces it to the text `undefined`. -/
def getUnsignedPaddedJWT (jwt : String) (length paddingValue : Nat) :
    Except ZKErr UnsignedPaddedJWT := do
  let jwtArray := jsSplitDot jwt
  let s := jwtArray.getD 0 "undefined" ++ "." ++ jwtArray.getD 1 "undefined"
  let ascii ← getPaddedBase64Ascii s s.length 0
  let gb ← getBigNumber ascii
  let jwtBinary := padStartZeros (s.length * 8) (bitsBE gb)
  let len := listLen jwtBinary
  let withOne := jwtBinary ++ [1]
  if 448 < listLen withOne % 512 then .error .negArrayLength
  else
    let filled := withOne ++ List.replicate (448 - listLen withOne % 512) 0
    let full := filled ++ padStartZeros 64 (bitsBE len)
    let numSha2Blocks := listLen full / 512
    let unsignedPaddedJWT := (chunkList full 8).map bitsValueBE
    if length < listLen unsignedPaddedJWT then .error .negArrayLength
    else
      .ok ⟨unsignedPaddedJWT ++ List.replicate (length - listLen unsignedPaddedJWT) paddingValue,
        (jwtArray.getD 1 "undefined").length, numSha2Blocks,
        (jwtArray.getD 0 "undefined").length + 1⟩

/-- JS `String.prototype.substring(a, b)`: clamp both indices into
`[0, length]` (negative values clamp to `0`) and swap them when out of
order. -/
def jsSubstring (s : String) (a b : Int) : String :=
  let n := s.length
  let aN := min a.toNat n
  let bN := min b.toNat n
  String.mk (((s.data.drop (min aN bN))).take (max aN bN - min aN bN))

/-- Helper for `jsIndexOf`: the first index at or after `i` where `nd` is
a prefix of the remaining characters. -/
def jsIndexOfGo (nd : List Char) : List Char → Nat → Option Nat
  | [], i => if nd.isEmpty then some i else none
  | c :: t, i => if nd.isPrefixOf (c :: t) then some i else jsIndexOfGo nd t (i + 1)

/-- JS `String.prototype.indexOf`: index of the first occurrence, `-1`
when absent (an empty needle is found at index `0`). -/
def jsIndexOf (s needle : String) : Int :=
  match jsIndexOfGo needle.data s.data 0 with
  | some i => (i : Int)
  | none => -1

/-- Value of one base64 character. Node accepts both the standard and the
url-safe alphabet and ignores every other character. -/
def b64CharVal (c : Char) : Option Nat :=
  if 'A' ≤ c ∧ c ≤ 'Z' then some (c.toNat - 65)
  else if 'a' ≤ c ∧ c ≤ 'z' then some (c.toNat - 97 + 26)
  else if '0' ≤ c ∧ c ≤ '9' then some (c.toNat - 48 + 52)
  else if c = '+' ∨ c = '-' then some 62
  else if c = '/' ∨ c = '_' then some 63
  else none

/-- Decode a list of 6-bit groups into bytes: each full group of four
gives three bytes; a trailing group of two or three characters gives one
or two bytes with the spare low bits dropped, as Node's lenient base64
decoder does. -/
def b64Groups : List Nat → List Nat
  | a :: b :: c :: d :: rest =>
    let n := ((a * 64 + b) * 64 + c) * 64 + d
    n / 65536 :: n / 256 % 256 :: n % 256 :: b64Groups rest
  | [a, b] => [(a * 64 + b) / 16]
  | [a, b, c] =>
    let n := (a * 64 + b) * 64 + c
    [n / 1024, n / 4 % 256]
  | _ => []

/-- Node `Buffer.from(str, 'base64')`: keep the alphabet characters and
decode them in groups. -/
def decodeBase64Bytes (s : String) : List Nat :=
  b64Groups (s.data.filterMap b64CharVal)

/-- `decodeBase64` of `convert.ts` (`Buffer.from(str, 'base64').toString('binary')`):
the decoded bytes read back as a latin-1 string. -/
def decodeBase64 (s : String) : String :=
  String.mk (decodeBase64Bytes s |>.map Char.ofNat)

/-- `decodeBase64Url` of `convert.ts`: map the url-safe alphabet onto the
standard one and decode with `atob`. Modelled with the same lenient
decoder, which agrees with it on every valid base64url input. -/
def decodeBase64Url (input : String) : List Nat := decodeBase64Bytes input

/-- `getKCString` of `convert.ts`. JS semantics matter here: for a claim
name that is absent from the payload, `indexOf` returns `-1`, `substring`
clamps the negative start index to `0`, and a garbage slice is returned —
there is no error path at all. -/
def getKCString (payload name : String) : String :=
  let namePos := jsIndexOf payload name
  let start := namePos - 2
  let e := jsIndexOf (jsSubstring payload (namePos + 1) payload.length) ","
  jsSubstring payload start (namePos + e + 2)

/-- Result record of `getBase64String`. -/
structure Base64Span where
  needleB64 : String
  startB64 : Int
  endB64 : Int
deriving DecidableEq

/-- `getBase64String` of `convert.ts`: the base64 span of the JWT covering
a byte span of the decoded payload. `Math.floor` of a quotient is
flooring division and JS `%` is the truncated remainder. -/
def getBase64String (hayStack jwt needle : String) : Base64Span :=
  let jwtValues := jsSplitDot jwt
  let header := jwtValues.getD 0 "undefined"
  let payload := jwtValues.getD 1 "undefined"
  let strIndex := jsIndexOf hayStack needle
  let strIndexB64 := strIndex.fdiv 3 * 4 + strIndex.tmod 3
  let endIndex := strIndex + needle.length
  let endIndexB64 := endIndex.fdiv 3 * 4 +
    (if endIndex.tmod 3 = 0 then 0 else 1 + endIndex.tmod 3)
  { needleB64 := jsSubstring payload strIndexB64 endIndexB64,
    startB64 := strIndexB64 + header.length + 1,
    endB64 := endIndexB64 + header.length + 1 }

/-- Result record of `getExtKCFields`. -/
structure ExtKCFields where
  asciiVal : List Nat
  b64Index : Int
  b64Size : Int
  asciiArrayLength : Nat
  nameLength : Nat
  colonIndex : Int
  valueIndex : Int
  valueLength : Int
  value : String
deriving DecidableEq

/-- `getExtKCFields` of `convert.ts` (its `excludeEndComma` parameter is
unused in the source and omitted here). The only error path is the final
`padArray` when the extracted slice is longer than the pad length. -/
def getExtKCFields (payload name : String) (len : Nat) (jwt : String) :
    Except ZKErr ExtKCFields := do
  let s := getKCString payload name
  let finalVal := jsSubstring s 1 s.length
  let gb := getBase64String payload jwt finalVal
  let asciiArray ← getPaddedBase64Ascii finalVal finalVal.length 0
  let asciiArrayLength := asciiArray.length
  let nameLength := name.length + 2
  let colonIndex := jsIndexOf finalVal ":"
  let valueIndex := colonIndex + 1
  let valueLength := jsIndexOf (jsSubstring finalVal (valueIndex + 1) finalVal.length) "\"" + 2
  let updatedAsciiArray ← padArray asciiArray len 0
  .ok { asciiVal := updatedAsciiArray, b64Index := gb.startB64,
        b64Size := gb.endB64 - gb.startB64, asciiArrayLength := asciiArrayLength,
        nameLength := nameLength, colonIndex := colonIndex, valueIndex := valueIndex,
        valueLength := valueLength, value := finalVal }

/-- The payload view jose's `decodeJwt` exposes and `generateZKInput`
reads as parsed JSON: the `sub` and `aud` claims (either may be absent). -/
structure JWTPayloadView where
  sub : Option String
  aud : Option String
deriving DecidableEq

/-- The header view `JSON.parse` of the decoded header segment exposes;
the builder reads only `kid`. -/
structure JWTHeaderView where
  kid : String
deriving DecidableEq

/-- `JWTPublicKeyData` of `convert.ts`: one JWKS entry. -/
structure JWTPublicKeyData where
  kty : String
  alg : String
  kid : String
  use : String
  e : String
  n : String
deriving DecidableEq

/-- The external functions `generateZKInput` calls: the poseidon-lite
primitive family, jose's `decodeJwt`, and `JSON.parse` applied to the
base64-decoded header segment. -/
structure Ext where
  prims : PoseidonPrims
  decodeJwt : String → Option JWTPayloadView
  parseHeader : String → Option JWTHeaderView

/-- `parseJWT` of `convert.ts`: `decodeJwt` runs first, then the JSON
header parse, then the signature decode `decodeAscii(decodeBase64(data[2]))`
— the latter value is unused but throws when the JWT has fewer than three
segments (`Buffer.from(undefined, 'base64')`). -/
def parseJWT (ext : Ext) (jwt : String) : Except ZKErr (JWTHeaderView × JWTPayloadView) := do
  let data := jsSplitDot jwt
  let payload ← match ext.decodeJwt jwt with
    | some p => Except.ok p
    | none => Except.error ZKErr.decodeJwtFailed
  let header ← match ext.parseHeader (decodeBase64 (data.getD 0 "undefined")) with
    | some h => Except.ok h
    | none => Except.error ZKErr.parseHeaderFailed
  if data.length < 3 then Except.error ZKErr.jwtShape
  else Except.ok (header, payload)

/-- `getModulus` of `convert.ts`: the `n` of the first JWKS entry whose
`kid` matches, else the `Modulus not found` throw. -/
def getModulus (header : JWTHeaderView) (certs : List JWTPublicKeyData) : Except ZKErr String :=
  match certs.filter (fun m => m.kid == header.kid) with
  | k :: _ => .ok k.n
  | [] => .error .modulusNotFound

/-- Value of a hexadecimal digit. -/
def hexDigit (c : Char) : Option Nat :=
  if '0' ≤ c ∧ c ≤ '9' then some (c.toNat - 48)
  else if 'a' ≤ c ∧ c ≤ 'f' then some (c.toNat - 87)
  else if 'A' ≤ c ∧ c ≤ 'F' then some (c.toNat - 55)
  else none

/-- Parse a hex character list into bytes; reject odd length or non-hex
characters. -/
def hexPairsGo : List Char → Option (List Nat)
  | [] => some []
  | [_] => none
  | a :: b :: rest => do
    let hi ← hexDigit a
    let lo ← hexDigit b
    let r ← hexPairsGo rest
    some ((hi * 16 + lo) :: r)

/-- `hexToU8a` of `@polkadot/util`: strip the `0x` prefix and parse hex
byte pairs. -/
def hexToU8a (keyStr : String) : Except ZKErr (List Nat) :=
  let h :=
    match keyStr.data with
    | '0' :: 'x' :: rest => rest
    | l => l
  match hexPairsGo h with
  | some bytes => .ok bytes
  | none => .error .invalidHex

/-- `toBigIntBE` of `convert.ts` (via `toHEX` and `BigInt('0x...')`):
big-endian byte interpretation, `0` for the empty list. -/
def toBigIntBE (bytes : List Nat) : Nat :=
  bytes.foldl (fun acc b => acc * 256 + b) 0

/-- `new Ed25519PublicKey(bytes).toSuiBytes()` of `@mysten/sui.js`: a zero
scheme-flag byte followed by the 32 key bytes; the constructor rejects any
other key length. -/
def toSuiBytes (keyBytes : List Nat) : Except ZKErr (List Nat) :=
  if keyBytes.length = 32 then .ok (0 :: keyBytes)
  else .error .invalidKeySize

/-- JS `BigInt(string)` as applied to `max_epoch`: the empty string parses
as `0`, decimal digit strings parse as numbers, anything else throws. -/
def parseBigIntDec (s : String) : Except ZKErr Nat :=
  if s.data.all (fun c => decide ('0' ≤ c ∧ c ≤ '9')) then
    .ok (s.data.foldl (fun acc c => acc * 10 + (c.toNat - 48)) 0)
  else .error .invalidDecimal

/-- The field residue of a possibly negative JS number fed into the
Poseidon field arithmetic (the source stringifies `issMod4` and
poseidon-lite re-parses it with `BigInt` and reduces modulo `Fp`). -/
def intToFp (i : Int) : Nat := (i.emod Fp).toNat

/-- `getAddressSeed` of `convert.ts`:
`poseidonHash([kcNameF, kcValueF, audValueF, poseidonHash([salt])])`. -/
def getAddressSeed (prims : PoseidonPrims) (kcNameF kcValueF audValueF : Nat) (salt : Nat) :
    Except ZKErr Nat := do
  let hashedSalt ← poseidonHash prims [salt]
  poseidonHash prims [kcNameF, kcValueF, audValueF, hashedSalt]

/-- `getAllInputsHash` of `convert.ts`. It re-derives the ephemeral key
halves from `keyStr` exactly as the main function does; the byte loop of
the source is skipped since it only fills an unused local. -/
def getAllInputsHash (prims : PoseidonPrims) (keyStr : String) (addressSeed : Nat)
    (maxEpoch : String) (issFieldF : Nat) (issIndexMod4 : Int) (headerF modulusF : Nat) :
    Except ZKErr Nat := do
  let keyBytes ← hexToU8a keyStr
  let suiBytes ← toSuiBytes keyBytes
  let publicKeyBytes := toBigIntBE suiBytes
  let eph0 := publicKeyBytes / 2 ^ 128
  let eph1 := publicKeyBytes % 2 ^ 128
  let epochN ← parseBigIntDec maxEpoch
  poseidonHash prims
    [eph0, eph1, addressSeed, epochN, issFieldF, intToFp issIndexMod4, headerF, modulusF]

/-- The circuit input map `generateZKInput` assembles (the source
stringifies every number; here the numeric values are kept as numbers,
which the stringification determines bijectively on these ranges). -/
structure ZKLoginInput where
  all_inputs_hash : Nat
  aud_colon_index : Int
  aud_index_b64 : Int
  aud_length_b64 : Int
  aud_value_index : Int
  aud_value_length : Int
  eph_public_key : List Nat
  ev_colon_index : Int
  ev_index_b64 : Int
  ev_length_b64 : Int
  ev_name_length : Nat
  ev_value_index : Int
  ev_value_length : Int
  ext_aud : List Nat
  ext_aud_length : Nat
  ext_ev : List Nat
  ext_ev_length : Nat
  ext_kc : List Nat
  ext_kc_length : Nat
  ext_nonce : List Nat
  ext_nonce_length : Nat
  iss_index_b64 : Int
  iss_length_b64 : Int
  jwt_randomness : String
  kc_colon_index : Int
  kc_index_b64 : Int
  kc_length_b64 : Int
  kc_name_length : Nat
  kc_value_index : Int
  kc_value_length : Int
  max_epoch : String
  modulus : List Nat
  nonce_colon_index : Int
  nonce_index_b64 : Int
  nonce_length_b64 : Int
  nonce_value_index : Int
  num_sha2_blocks : Nat
  padded_unsigned_jwt : List Nat
  payload_len : Nat
  payload_start_index : Nat
  salt : Nat
  signature : List Nat
deriving DecidableEq

/-- The `iss_base64_details` part of `SuiProofFields`. -/
structure IssBase64Details where
  value : Nat
  index_mod_4 : Int
deriving DecidableEq

/-- `SuiProofFields` of `convert.ts`. -/
structure SuiProofFields where
  iss_base64_details : IssBase64Details
  address_seed : Nat
  header : Nat
deriving DecidableEq

/-- The full return value of `generateZKInput`. -/
structure ZKResult where
  inputs : ZKLoginInput
  fields : SuiProofFields
deriving DecidableEq

/-- The argument record of `generateZKInput`. -/
structure ZKArgs where
  jwt : String
  salt : String
  keyStr : String
  epoch : String
  randomness : String
  certs : List JWTPublicKeyData
deriving DecidableEq

/-- `generateZKInput` of `convert.ts`, step for step in source order. The
two in-place `Array.prototype.reverse()` mutations of the modulus limb
array become explicit: `modulusBE` is the state of the source's
`modulusZK` binding after the first reversal (used for `modulusF`), and
the emitted `modulus` is its second reversal. -/
def generateZKInput (ext : Ext) (a : ZKArgs) : Except ZKErr ZKResult := do
  let (header, payload) ← parseJWT ext a.jwt
  let headerBase64 := (jsSplitDot a.jwt).getD 0 "undefined"
  let payloadBase64 := (jsSplitDot a.jwt).getD 1 "undefined"
  let signatureBase64 := (jsSplitDot a.jwt).getD 2 "undefined"
  let payloadStr := decodeBase64 payloadBase64
  let modulus ← getModulus header a.certs
  let modulusBN ← getBigNumber (decodeBase64Url modulus)
  let signatureBN ← getBigNumber (decodeBase64Url signatureBase64)
  let modulusZK := getLimbs 64 modulusBN
  let signatureZK := getLimbs 64 signatureBN
  let upj ← getUnsignedPaddedJWT a.jwt 1600 0
  let kc ← getExtKCFields payloadStr "sub" 126 a.jwt
  let nonce ← getExtKCFields payloadStr "nonce" 44 a.jwt
  let ev ← getExtKCFields payloadStr "nonce" 53 a.jwt
  let aud ← getExtKCFields payloadStr "aud" 160 a.jwt
  let iss ← getExtKCFields payloadStr "iss" 160 a.jwt
  let iss_index_b64 := iss.b64Index
  let iss_length_b64 := iss.b64Size
  let keyBytes ← hexToU8a a.keyStr
  let suiBytes ← toSuiBytes keyBytes
  let publicKeyBytes := toBigIntBE suiBytes
  let eph_public_key_0 := publicKeyBytes / 2 ^ 128
  let eph_public_key_1 := publicKeyBytes % 2 ^ 128
  let issBase64 := jsSubstring a.jwt iss_index_b64 (iss_index_b64 + iss_length_b64)
  let issHashIn ← hashStringToField issBase64 224 8 248
  let issFieldF ← poseidonHash ext.prims issHashIn
  let kcNameIn ← hashStringToField "sub" 32 8 248
  let kcNameF ← poseidonHash ext.prims kcNameIn
  let subClaim ← match payload.sub with
    | some s => Except.ok s
    | none => Except.error ZKErr.undefinedClaim
  let kcValueIn ← hashStringToField subClaim 115 8 248
  let kcValueF ← poseidonHash ext.prims kcValueIn
  let audClaim ← match payload.aud with
    | some s => Except.ok s
    | none => Except.error ZKErr.undefinedClaim
  let audValueIn ← hashStringToField audClaim 145 8 248
  let audValueF ← poseidonHash ext.prims audValueIn
  let headerIn ← hashStringToField headerBase64 248 8 248
  let headerF ← poseidonHash ext.prims headerIn
  let modulusBE := modulusZK.reverse
  let modulusF ← poseidonHash ext.prims (hashArrayToField modulusBE 64 248)
  let saltAscii ← getPaddedBase64Ascii a.salt a.salt.length 0
  let saltBN ← getBigNumber saltAscii
  let addressSeed ← getAddressSeed ext.prims kcNameF kcValueF audValueF saltBN
  let issMod4 := (iss_index_b64 - ((headerBase64.length : Int) + 1)).tmod 4
  let allInputsHash ← getAllInputsHash ext.prims a.keyStr addressSeed a.epoch issFieldF issMod4
    headerF modulusF
  let modulusEmitted := modulusBE.reverse
  .ok {
    inputs := {
      all_inputs_hash := allInputsHash,
      aud_colon_index := aud.colonIndex,
      aud_index_b64 := aud.b64Index,
      aud_length_b64 := aud.b64Size,
      aud_value_index := aud.valueIndex,
      aud_value_length := aud.valueLength,
      eph_public_key := [eph_public_key_0, eph_public_key_1],
      ev_colon_index := ev.colonIndex,
      ev_index_b64 := ev.b64Index,
      ev_length_b64 := ev.b64Size,
      ev_name_length := ev.nameLength,
      ev_value_index := ev.valueIndex,
      ev_value_length := ev.valueLength,
      ext_aud := aud.asciiVal,
      ext_aud_length := aud.asciiArrayLength,
      ext_ev := ev.asciiVal,
      ext_ev_length := ev.asciiArrayLength,
      ext_kc := kc.asciiVal,
      ext_kc_length := kc.asciiArrayLength,
      ext_nonce := nonce.asciiVal,
      ext_nonce_length := nonce.asciiArrayLength,
      iss_index_b64 := iss_index_b64,
      iss_length_b64 := iss_length_b64,
      jwt_randomness := a.randomness,
      kc_colon_index := kc.colonIndex,
      kc_index_b64 := kc.b64Index,
      kc_length_b64 := kc.b64Size,
      kc_name_length := kc.nameLength,
      kc_value_index := kc.valueIndex,
      kc_value_length := kc.valueLength,
      max_epoch := a.epoch,
      modulus := modulusEmitted,
      nonce_colon_index := nonce.colonIndex,
      nonce_index_b64 := nonce.b64Index,
      nonce_length_b64 := nonce.b64Size,
      nonce_value_index := nonce.valueIndex,
      num_sha2_blocks := upj.numSha2Blocks,
      padded_unsigned_jwt := upj.paddedUnsignedJwt,
      payload_len := upj.payloadLen,
      payload_start_index := upj.payloadStartIndex,
      salt := saltBN,
      signature := signatureZK },
    fields := {
      address_seed := addressSeed,
      header := headerF,
      iss_base64_details := { index_mod_4 := issMod4, value := issFieldF } } }

/-- The RSA modulus integer `generateZKInput` derives: the composition of
`parseJWT`, `getModulus`, `decodeBase64Url` and `getBigNumber` it
performs. Used to state what the emitted `modulus` limbs decompose. -/
def rsaModulusBN (ext : Ext) (a : ZKArgs) : Except ZKErr Nat := do
  let (header, _) ← parseJWT ext a.jwt
  let modulus ← getModulus header a.certs
  getBigNumber (decodeBase64Url modulus)

/-- The RSA signature integer `generateZKInput` derives from the third JWT
segment. -/
def rsaSignatureBN (a : ZKArgs) : Except ZKErr Nat :=
  getBigNumber (decodeBase64Url ((jsSplitDot a.jwt).getD 2 "undefined"))

/-- The address-seed value as a function of the poseidon family, the `sub`
and `aud` claim values and the salt string alone: the composition of the
source's `kcNameF`, `kcValueF`, `audValueF`, salt and `getAddressSeed`
computations. `generateZKInput` produces exactly this value (see the C1
theorem), which is what makes the address seed independent of
`jwt_randomness`, `max_epoch` and the ephemeral key. -/
def addressSeedOfClaims (prims : PoseidonPrims) (subClaim audClaim salt : String) :
    Except ZKErr Nat := do
  let kcNameIn ← hashStringToField "sub" 32 8 248
  let kcNameF ← poseidonHash prims kcNameIn
  let kcValueIn ← hashStringToField subClaim 115 8 248
  let kcValueF ← poseidonHash prims kcValueIn
  let audValueIn ← hashStringToField audClaim 145 8 248
  let audValueF ← poseidonHash prims audValueIn
  let saltAscii ← getPaddedBase64Ascii salt salt.length 0
  let saltBN ← getBigNumber saltAscii
  getAddressSeed prims kcNameF kcValueF audValueF saltBN

/-- The proof job status enum of the proof-server Prisma schema
(`waiting | generating | generated | failed`). -/
inductive ProofStatus where
  | waiting
  | generating
  | generated
  | failed
deriving DecidableEq

/-- One row of the proof table, restricted to the columns the scheduler
tick, the timeout closure and the result handler read or write.
`hasProofData` records whether the `proof`/`public` columns were set. -/
structure ProofRow where
  id : String
  status : ProofStatus
  createdAt : Nat
  hasProofData : Bool
deriving DecidableEq

/-- The Prisma query of the scheduler tick:
`findFirst({where: {status: 'waiting'}, orderBy: {createdAt: 'asc'}})` —
the earliest-created row whose status is `waiting` (first such row on
ties). -/
def findFirstWaiting (rows : List ProofRow) : Option ProofRow :=
  rows.foldl
    (fun acc j =>
      if j.status = ProofStatus.waiting then
        match acc with
        | none => some j
        | some b => if j.createdAt < b.createdAt then some j else some b
      else acc)
    none

/-- A Prisma single-row update `update({where: {id}, data})`: when a row
with the id exists, rewrite it with `f` — there is no status
precondition — and otherwise throw (Prisma record-not-found). -/
def prismaUpdate (rows : List ProofRow) (id : String) (f : ProofRow → ProofRow) :
    Except Unit (List ProofRow) :=
  if rows.any (fun j => j.id == id) then
    .ok (rows.map fun j => if j.id == id then f j else j)
  else .error ()

/-- A connected worker socket, as `getAvailableWorker` inspects it. -/
structure Worker where
  isAlive : Bool
  readyStateOpen : Bool
deriving DecidableEq

/-- `ProofWebsocketGateway.getAvailableWorker`: the first connected worker
that is alive and whose socket is in the open state, else `null`. -/
def getAvailableWorker (workers : List Worker) : Option Worker :=
  workers.find? fun w => w.isAlive && w.readyStateOpen

/-- Scheduler-visible state: the proof table, the in-memory
`processingProofs` set, and the log of task messages sent to workers. -/
structure SchedState where
  rows : List ProofRow
  processingProofs : List String
  sentTasks : List String
deriving DecidableEq

/-- One `handleProofTasks` scheduler tick of `ProofTaskService` (the
`EVERY_SECOND` / 600000 ms revision): select the oldest `waiting` job;
return with no state change when there is none, when its id is already in
the processing set, or when no worker is available; otherwise insert the
id into the processing set, update the row to `generating`, send the task
and arm the timeout. The second component is the job id held by the armed
timeout closure (`none` when no timer was armed). The `generating` update
cannot fail here because the selected row was just read from the table. -/
def handleProofTasks (workers : List Worker) (st : SchedState) :
    SchedState × Option String :=
  match findFirstWaiting st.rows with
  | none => (st, none)
  | some proof =>
    if st.processingProofs.contains proof.id then (st, none)
    else
      match getAvailableWorker workers with
      | none => (st, none)
      | some _ =>
        let rows := st.rows.map fun j =>
          if j.id == proof.id then { j with status := ProofStatus.generating } else j
        ({ rows := rows,
           processingProofs := proof.id :: st.processingProofs,
           sentTasks := proof.id :: st.sentTasks },
         some proof.id)

/-- The timeout closure armed by the tick: re-read the row; if it is still
`generating`, update it to `failed`; in every case (the `finally` block)
remove the id from the processing set. -/
def timeoutFire (st : SchedState) (id : String) : SchedState :=
  let rows :=
    match st.rows.find? (fun j => j.id == id) with
    | some row =>
      if row.status = ProofStatus.generating then
        st.rows.map fun j => if j.id == id then { j with status := ProofStatus.failed } else j
      else st.rows
    | none => st.rows
  { st with rows := rows, processingProofs := st.processingProofs.filter (· != id) }

/-- `ProofWebsocketGateway.handleProofResult`: update the row to
`generated` and store the proof payload, with no status precondition; only
when that update throws (row absent) fall back to a best-effort update to
`failed`. -/
def handleProofResult (rows : List ProofRow) (proofId : String) : List ProofRow :=
  match prismaUpdate rows proofId
      (fun j => { j with status := ProofStatus.generated, hasProofData := true }) with
  | .ok r => r
  | .error _ =>
    match prismaUpdate rows proofId (fun j => { j with status := ProofStatus.failed }) with
    | .ok r => r
    | .error _ => rows

/-- Concrete witness JWT: header `alg RS256, kid k1, typ JWT`, payload
with claims `iss "ha"`, `aud "cd"`, `sub "19"`, `nonce "xz"`, `exp "7"`
(base64url), signature segment `QQ`. -/
def jwtW1 : String :=
  "eyJhbGciOiJSUzI1NiIsImtpZCI6ImsxIiwidHlwIjoiSldUIn0.eyJpc3MiOiJoYSIsImF1ZCI6ImNkIiwic3ViIjoiMTkiLCJub25jZSI6Inh6IiwiZXhwIjoiNyJ9.QQ"

/-- Like `jwtW1` but with a different `nonce` claim value (`qw`). -/
def jwtW2 : String :=
  "eyJhbGciOiJSUzI1NiIsImtpZCI6ImsxIiwidHlwIjoiSldUIn0.eyJpc3MiOiJoYSIsImF1ZCI6ImNkIiwic3ViIjoiMTkiLCJub25jZSI6InF3IiwiZXhwIjoiNyJ9.QQ"

/-- Like `jwtW1` but with no `nonce` claim in the payload at all. -/
def jwtW3 : String :=
  "eyJhbGciOiJSUzI1NiIsImtpZCI6ImsxIiwidHlwIjoiSldUIn0.eyJpc3MiOiJoYSIsImF1ZCI6ImNkIiwic3ViIjoiMTkiLCJleHAiOiI3In0.QQ"

/-- A JWT whose unsigned part `header.payload` is 56 characters long, so
that the bit length after the appended `1` bit is `449 ≡ 449 (mod 512)`,
above the `448` boundary of the SHA-256 padding computation. -/
def jwtW4 : String :=
  "AAA.BBBBBBBBBBBBBBBBBBBBBBBBBBBBBBBBBBBBBBBBBBBBBBBBBBBB.QQ"

/-- Witness JWKS list: one RSA entry with kid `k1` and modulus `wzU`
(base64url of the bytes `0xC3 0x35`, so the modulus integer is `49973`). -/
def certsW : List JWTPublicKeyData :=
  [⟨"RSA", "RS256", "k1", "sig", "AQAB", "wzU"⟩]

/-- Witness external functions: a trivial poseidon family, a `decodeJwt`
returning the claims the witness payloads carry (`sub "19"`, `aud "cd"`),
and a header parse returning kid `k1`. -/
def extW : Ext :=
  { prims := fun _ _ => 0,
    decodeJwt := fun _ => some ⟨some "19", some "cd"⟩,
    parseHeader := fun _ => some ⟨"k1"⟩ }

/-- A 32-byte ephemeral public key (hex). -/
def keyW1 : String :=
  "0x0101010101010101010101010101010101010101010101010101010101010101"

/-- A second, different 32-byte ephemeral public key (hex). -/
def keyW2 : String :=
  "0x0202020202020202020202020202020202020202020202020202020202020202"

/-- Witness argument record one. -/
def argsW1 : ZKArgs :=
  { jwt := jwtW1, salt := "123", keyStr := keyW1, epoch := "1", randomness := "5",
    certs := certsW }

/-- Witness argument record two: same `sub`, `aud` and salt as `argsW1`,
different nonce, ephemeral key, epoch and randomness. -/
def argsW2 : ZKArgs :=
  { jwt := jwtW2, salt := "123", keyStr := keyW2, epoch := "2", randomness := "6",
    certs := certsW }

/-- Witness argument record three: the payload has no `nonce` claim. -/
def argsW3 : ZKArgs :=
  { jwt := jwtW3, salt := "123", keyStr := keyW1, epoch := "1", randomness := "5",
    certs := certsW }

/-- A poseidon primitive family whose arity-2 and arity-10 members are the
genuine poseidon-lite instances. -/
def primsW : PoseidonPrims :=
  fun n => if n = 2 then poseidon2 else if n = 10 then poseidon10 else fun _ => 0


/-! ### Helper lemmas and theorems -/

/-- The iterative length agrees with `List.length`. -/
theorem listLenGo_eq (l : List α) : ∀ acc, listLenGo l acc = acc + l.length := by
  induction l with
  | nil => intro acc; simp [listLenGo]
  | cons a l ih => intro acc; cases acc <;> simp [listLenGo, ih] <;> omega

/-- The iterative length agrees with `List.length`. -/
theorem listLen_eq (l : List α) : listLen l = l.length := by
  simp [listLen, listLenGo_eq]

/-- The iterative big-endian bit accumulation is the left fold. -/
theorem bitsValueBEGo_eq (l : List Nat) :
    ∀ acc, bitsValueBEGo l acc = l.foldl (fun a b => 2 * a + b) acc := by
  induction l with
  | nil => intro acc; simp [bitsValueBEGo]
  | cons b l ih => intro acc; cases acc <;> simp [bitsValueBEGo, ih]

/-- An `Except` bind yields `ok` exactly when both stages do. -/
theorem except_bind_ok {ε α β : Type} {e : Except ε α} {f : α → Except ε β} {b : β} :
    (e >>= f) = Except.ok b ↔ ∃ a, e = Except.ok a ∧ f a = Except.ok b := by
  cases e <;> simp [Bind.bind, Except.bind]

/-- The fueled dispatcher on an arity the primitive table serves. -/
theorem poseidonHashGo_direct (prims : PoseidonPrims) (f : Nat) (l : List Nat)
    (h1 : 1 ≤ l.length) (h16 : l.length ≤ 16) :
    poseidonHashGo prims (f + 1) l = .ok (prims l.length l) := by
  simp [poseidonHashGo, h1, h16]

/-- `poseidonHash` on an arity the primitive table serves. -/
theorem poseidonHash_direct (prims : PoseidonPrims) (l : List Nat)
    (h1 : 1 ≤ l.length) (h16 : l.length ≤ 16) :
    poseidonHash prims l = .ok (prims l.length l) := by
  simp [poseidonHash, poseidonHashGo, h1, h16]

/-- Kernel-checkpointed evaluation of `poseidon10` on ten ones: rounds
1-25. -/
theorem poseidon10_ones_r25 :
    ((chunkList poseidonC11 11).enum.take 25).foldl (poseidonRound 66 poseidonM11)
      (0 :: List.replicate 10 1) =
    [14595893063295561483516620648380458608969747857039070463464039117623799600642,
      6282134758398613247981460645348293526154310252278783584148492153250125090718,
      7326319666722925014162932066903985503215143233167992819229120305819805370093,
      2449629193739815414497422891915904463082916000631751322245745458846483432123,
      13852741613737400764777222988640561232695808529863336447281564918230106924441,
      16237549724632251213803459371289866047558254913690784002470782348740124785094,
      14244653944988375017292745055423969995391592692216680085770200186052070084903,
      4727999970318869568927952737515319821193597745159555235361527478541181040443,
      4291354697435411801680312496031249170414205151193922262609408653830558990788,
      13534734633230807767135660948676336238120389588521493652052707265509119651063,
      7231577787746781557441298298182224350637394469539830193654130270803809008956] := by decide

/-- Kernel-checkpointed evaluation of `poseidon10` on ten ones: rounds
26-50. -/
theorem poseidon10_ones_r50 :
    (((chunkList poseidonC11 11).enum.drop 25).take 25).foldl (poseidonRound 66 poseidonM11)
      [14595893063295561483516620648380458608969747857039070463464039117623799600642,
      6282134758398613247981460645348293526154310252278783584148492153250125090718,
      7326319666722925014162932066903985503215143233167992819229120305819805370093,
      2449629193739815414497422891915904463082916000631751322245745458846483432123,
      13852741613737400764777222988640561232695808529863336447281564918230106924441,
      16237549724632251213803459371289866047558254913690784002470782348740124785094,
      14244653944988375017292745055423969995391592692216680085770200186052070084903,
      4727999970318869568927952737515319821193597745159555235361527478541181040443,
      4291354697435411801680312496031249170414205151193922262609408653830558990788,
      13534734633230807767135660948676336238120389588521493652052707265509119651063,
      7231577787746781557441298298182224350637394469539830193654130270803809008956] =
    [9010040185228441188507901624902250798296683498017921399614696862779545850570,
      19389136142185010794849554029802980217182650215253149294244718090403519239183,
      20079718131044930716243232935477004337594305825810390060345459492037977748928,
      16603604883545905804770791658875897321600005148379029798640736124723117147160,
      6526338194151494062398692416306190397505209151745116552451444019611586687832,
      5533225992277738759493914911298687698362991981626600300321835433552968465275,
      2019507764909722569945673067128344536452367031566875972578971836954211269977,
      19787187701076498058748886900247125850723389722429827509106227294193066129836,
      21753186711172716709940203327646163468057080982330203279131481332341084147732,
      9316675410612088482747422120288503243964825805335920692152134045664904408267,
      11828735241164645979642450107742419325049086667579833907626640019576594944882] := by decide

/-- Kernel-checkpointed evaluation of `poseidon10` on ten ones: rounds
51-74. -/
theorem poseidon10_ones_r74 :
    ((chunkList poseidonC11 11).enum.drop 50).foldl (poseidonRound 66 poseidonM11)
      [9010040185228441188507901624902250798296683498017921399614696862779545850570,
      19389136142185010794849554029802980217182650215253149294244718090403519239183,
      20079718131044930716243232935477004337594305825810390060345459492037977748928,
      16603604883545905804770791658875897321600005148379029798640736124723117147160,
      6526338194151494062398692416306190397505209151745116552451444019611586687832,
      5533225992277738759493914911298687698362991981626600300321835433552968465275,
      2019507764909722569945673067128344536452367031566875972578971836954211269977,
      19787187701076498058748886900247125850723389722429827509106227294193066129836,
      21753186711172716709940203327646163468057080982330203279131481332341084147732,
      9316675410612088482747422120288503243964825805335920692152134045664904408267,
      11828735241164645979642450107742419325049086667579833907626640019576594944882] =
    [21154062150014026117492338523992511721617667294911573944785740169656578526614,
      12243349051514142663923127773291591498293252400739614915506709341536564907618,
      1809017555371451423624378836689827274354934970738173439492434285444086927800,
      6012809181142217412592952991273683945600699699320851411603157929659452739311,
      7605006111901969603814953230222287979026500404374120876462364012715295722216,
      15029423011762088504638504353580636081065367061551050671953529163097560322621,
      4772060215529433240662003118244799510412245632846991471752015373910150305212,
      10745996191128521257097937744386827723145480792247852037216958965570283290156,
      8114766735906600177166095410675618630995184970067661163327773085561148607191,
      1012108167536792308241583682815227445396111928283676492848631933575561604029,
      13761507935823088948109622304175751595744797159916066370210212730028941227895] := by decide

/-- The poseidon-lite `poseidon10` value on ten ones. -/
theorem poseidon10_ones :
    poseidon10 (List.replicate 10 1) =
      21154062150014026117492338523992511721617667294911573944785740169656578526614 := by
  show ((chunkList poseidonC11 ((List.replicate (10 : Nat) (1 : Nat)).length + 1)).enum.foldl
      (poseidonRound 66 poseidonM11) (0 :: List.replicate 10 1)).headD 0 = _
  have e1 : (chunkList poseidonC11 ((List.replicate (10 : Nat) (1 : Nat)).length + 1)).enum
      = (chunkList poseidonC11 11).enum := rfl
  rw [e1]
  rw [show (chunkList poseidonC11 11).enum = (chunkList poseidonC11 11).enum.take 25
      ++ ((chunkList poseidonC11 11).enum.drop 25).take 25
      ++ (chunkList poseidonC11 11).enum.drop 50 from ?_]
  · rw [List.foldl_append, List.foldl_append, poseidon10_ones_r25, poseidon10_ones_r50,
      poseidon10_ones_r74]
    decide
  · rw [List.append_assoc]
    have hd : ((chunkList poseidonC11 11).enum.drop 25).take 25
        ++ (chunkList poseidonC11 11).enum.drop 50
        = (chunkList poseidonC11 11).enum.drop 25 := by
      have h2 : ((chunkList poseidonC11 11).enum.drop 25).drop 25
          = (chunkList poseidonC11 11).enum.drop 50 := by
        rw [List.drop_drop]
      rw [← h2, List.take_append_drop]
    rw [hd, List.take_append_drop]


/-- Recursive case of the fueled dispatcher: for lengths in 17..32 the
source splits at the midpoint and recurses. -/
theorem poseidonHashGo_recursive (prims : PoseidonPrims) (f : Nat) (l : List Nat)
    (hgt : 16 < l.length) (hle : l.length ≤ 32) :
    poseidonHashGo prims (f + 1) l =
      (poseidonHashGo prims f (l.take (l.length / 2)) >>= fun h1 =>
       poseidonHashGo prims f (l.drop (l.length / 2)) >>= fun h2 =>
       poseidonHashGo prims f [h1, h2]) := by
  have hno : ¬(1 ≤ l.length ∧ l.length ≤ 16) := by omega
  simp [poseidonHashGo, hno, hle]

/-- The direct case at any positive fuel. -/
theorem poseidonHashGo_direct2 (prims : PoseidonPrims) (f : Nat) (hf : 1 ≤ f) (l : List Nat)
    (h1 : 1 ≤ l.length) (h16 : l.length ≤ 16) :
    poseidonHashGo prims f l = .ok (prims l.length l) := by
  obtain ⟨g, rfl⟩ : ∃ g, f = g + 1 := ⟨f - 1, by omega⟩
  exact poseidonHashGo_direct prims g l h1 h16

/-- C7: for every input list of length `N` with `16 < N ≤ 32`,
`poseidonHash` equals the hash of the two recursively hashed halves split
at `⌊N/2⌋`; and for any primitive family agreeing with poseidon-lite at
arities 2 and 10, `poseidonHash` of twenty ones equals
15072132727802611689075884217146098229636289111460632484678401923831907179353. -/
theorem c7_poseidonHash_merkle_split (prims : PoseidonPrims)
    (hp2 : prims 2 = poseidon2) (hp10 : prims 10 = poseidon10) :
    (∀ inputs : List Nat, 16 < inputs.length → inputs.length ≤ 32 →
      ∃ a b,
        poseidonHash prims (inputs.take (inputs.length / 2)) = .ok a ∧
        poseidonHash prims (inputs.drop (inputs.length / 2)) = .ok b ∧
        poseidonHash prims inputs = poseidonHash prims [a, b]) ∧
    poseidonHash prims (List.replicate 20 1) =
      .ok 15072132727802611689075884217146098229636289111460632484678401923831907179353 := by
  constructor
  · intro inputs hgt hle
    have htake_len : (inputs.take (inputs.length / 2)).length = inputs.length / 2 := by
      simp [List.length_take]
      omega
    have hdrop_len : (inputs.drop (inputs.length / 2)).length
        = inputs.length - inputs.length / 2 := by
      simp [List.length_drop]
    have hta : poseidonHash prims (inputs.take (inputs.length / 2))
        = .ok (prims (inputs.length / 2) (inputs.take (inputs.length / 2))) := by
      have := poseidonHash_direct prims (inputs.take (inputs.length / 2))
        (by rw [htake_len]; omega) (by rw [htake_len]; omega)
      rwa [htake_len] at this
    have hdr : poseidonHash prims (inputs.drop (inputs.length / 2))
        = .ok (prims (inputs.length - inputs.length / 2) (inputs.drop (inputs.length / 2))) := by
      have := poseidonHash_direct prims (inputs.drop (inputs.length / 2))
        (by rw [hdrop_len]; omega) (by rw [hdrop_len]; omega)
      rwa [hdrop_len] at this
    refine ⟨_, _, hta, hdr, ?_⟩
    show poseidonHashGo prims (inputs.length + 1) inputs = _
    rw [poseidonHashGo_recursive prims inputs.length inputs hgt hle]
    have h1go : poseidonHashGo prims inputs.length (inputs.take (inputs.length / 2))
        = .ok (prims (inputs.length / 2) (inputs.take (inputs.length / 2))) := by
      have := poseidonHashGo_direct2 prims inputs.length (by omega)
        (inputs.take (inputs.length / 2))
        (by rw [htake_len]; omega) (by rw [htake_len]; omega)
      rwa [htake_len] at this
    have h2go : poseidonHashGo prims inputs.length (inputs.drop (inputs.length / 2))
        = .ok (prims (inputs.length - inputs.length / 2) (inputs.drop (inputs.length / 2))) := by
      have := poseidonHashGo_direct2 prims inputs.length (by omega)
        (inputs.drop (inputs.length / 2))
        (by rw [hdrop_len]; omega) (by rw [hdrop_len]; omega)
      rwa [hdrop_len] at this
    rw [h1go, h2go]
    have h3go : poseidonHashGo prims inputs.length
        [prims (inputs.length / 2) (inputs.take (inputs.length / 2)),
         prims (inputs.length - inputs.length / 2) (inputs.drop (inputs.length / 2))]
        = .ok (prims 2
            [prims (inputs.length / 2) (inputs.take (inputs.length / 2)),
             prims (inputs.length - inputs.length / 2) (inputs.drop (inputs.length / 2))]) := by
      exact poseidonHashGo_direct2 prims inputs.length (by omega) _ (by simp) (by simp)
    have h4 : poseidonHash prims
        [prims (inputs.length / 2) (inputs.take (inputs.length / 2)),
         prims (inputs.length - inputs.length / 2) (inputs.drop (inputs.length / 2))]
        = .ok (prims 2
            [prims (inputs.length / 2) (inputs.take (inputs.length / 2)),
             prims (inputs.length - inputs.length / 2) (inputs.drop (inputs.length / 2))]) :=
      poseidonHash_direct prims _ (by simp) (by simp)
    rw [h4]
    simp [Bind.bind, Except.bind, h3go]
  · have e20 : (List.replicate 20 (1 : Nat)).length = 20 := by simp
    show poseidonHashGo prims ((List.replicate 20 1).length + 1) (List.replicate 20 1) = _
    rw [e20]
    rw [show (20 : Nat) + 1 = 20 + 1 from rfl,
      poseidonHashGo_recursive prims 20 (List.replicate 20 1) (by simp) (by simp)]
    have htake : (List.replicate 20 (1 : Nat)).take ((List.replicate 20 (1 : Nat)).length / 2)
        = List.replicate 10 1 := by simp
    have hdrop : (List.replicate 20 (1 : Nat)).drop ((List.replicate 20 (1 : Nat)).length / 2)
        = List.replicate 10 1 := by simp
    rw [htake, hdrop]
    have hgo10 : poseidonHashGo prims 20 (List.replicate 10 1)
        = .ok (prims 10 (List.replicate 10 1)) := by
      have := poseidonHashGo_direct prims 19 (List.replicate 10 (1 : Nat)) (by simp) (by simp)
      simpa using this
    rw [hgo10]
    rw [hp10, poseidon10_ones]
    have hgo2 : poseidonHashGo prims 20
        [21154062150014026117492338523992511721617667294911573944785740169656578526614,
         21154062150014026117492338523992511721617667294911573944785740169656578526614]
        = .ok (prims 2
            [21154062150014026117492338523992511721617667294911573944785740169656578526614,
             21154062150014026117492338523992511721617667294911573944785740169656578526614]) := by
      have := poseidonHashGo_direct prims 19
        [(21154062150014026117492338523992511721617667294911573944785740169656578526614 : Nat),
         21154062150014026117492338523992511721617667294911573944785740169656578526614]
        (by simp) (by simp)
      simpa using this
    simp only [Bind.bind, Except.bind]
    rw [hgo2, hp2]
    rw [show poseidon2
        [21154062150014026117492338523992511721617667294911573944785740169656578526614,
         21154062150014026117492338523992511721617667294911573944785740169656578526614] =
        15072132727802611689075884217146098229636289111460632484678401923831907179353
      from by decide]

/-- Closed witness for C7: the concrete primitive family `primsW` agrees
with poseidon-lite at arities 2 and 10, and `poseidonHash` on twenty ones
evaluates to the reference value. -/
theorem c7_witness :
    poseidonHash primsW (List.replicate 20 1) =
      .ok 15072132727802611689075884217146098229636289111460632484678401923831907179353 :=
  (c7_poseidonHash_merkle_split primsW rfl rfl).2

/-- C8: the claim says `poseidonHash []` fails cleanly with an
`EmptyInput` error; on the code the empty list instead recurses into
itself forever (`poseidonHashFunctions[-1]` is `undefined` and the
`length ≤ 32` branch splits `[]` into `[]` and `[]`): at every fuel the
embedded recursion still reports fuel exhaustion, i.e. the call diverges
rather than erroring. -/
theorem c8_poseidonHash_empty_diverges (prims : PoseidonPrims) :
    (∀ fuel, poseidonHashGo prims fuel [] = .error ZKErr.hashNoFuel) ∧
    poseidonHash prims [] = .error ZKErr.hashNoFuel := by
  have key : ∀ fuel, poseidonHashGo prims fuel [] = .error ZKErr.hashNoFuel := by
    intro fuel
    induction fuel with
    | zero => rfl
    | succ f ih => simp [poseidonHashGo, ih, Bind.bind, Except.bind]
  exact ⟨key, key _⟩

/-- C2: the claim that terminal statuses are sinks fails on the code:
`handleProofResult` runs its `generated` update with no status
precondition, so a worker reply that arrives after the timeout has already
set the job to `failed` overwrites the terminal `failed` with `generated`
(and stores the proof payload). Evaluated at a store holding exactly one
`failed` row. -/
theorem c2_late_result_overwrites_failed :
    handleProofResult [⟨"p1", ProofStatus.failed, 0, false⟩] "p1" =
      [⟨"p1", ProofStatus.generated, 0, true⟩] := by decide

/-- C9: a scheduler tick that selects a `waiting` job but finds no
available worker mutates nothing — the store, the processing set and the
sent-task log are unchanged and no timer is armed; and a later tick with
an available worker dispatches exactly that job. -/
theorem c9_no_worker_tick_no_mutation (workers workers2 : List Worker) (st : SchedState)
    (j : ProofRow) (w : Worker)
    (hfind : findFirstWaiting st.rows = some j)
    (hproc : j.id ∉ st.processingProofs)
    (hw : getAvailableWorker workers = none)
    (hw2 : getAvailableWorker workers2 = some w) :
    handleProofTasks workers st = (st, none) ∧
    (handleProofTasks workers2 st).2 = some j.id ∧
    (handleProofTasks workers2 st).1.sentTasks = j.id :: st.sentTasks := by
  unfold handleProofTasks
  rw [hfind]
  simp [hproc, hw, hw2]

/-- Closed witness for C9: one waiting job, an empty worker pool for the
first tick, a live open worker for the second. -/
theorem c9_witness :
    handleProofTasks [] ⟨[⟨"p1", ProofStatus.waiting, 0, false⟩], [], []⟩ =
      (⟨[⟨"p1", ProofStatus.waiting, 0, false⟩], [], []⟩, none) ∧
    (handleProofTasks [⟨true, true⟩] ⟨[⟨"p1", ProofStatus.waiting, 0, false⟩], [], []⟩).2 =
      some "p1" := by
  have h := c9_no_worker_tick_no_mutation [] [⟨true, true⟩]
    ⟨[⟨"p1", ProofStatus.waiting, 0, false⟩], [], []⟩ ⟨"p1", ProofStatus.waiting, 0, false⟩
    ⟨true, true⟩ (by decide) (by decide) (by decide) (by decide)
  exact ⟨h.1, h.2.1⟩


/-- C4: the claim requires the SHA-256 padding to be correct for every
unsigned-JWT byte length, including lengths where `(8·len + 1) mod 512 >
448`; on the code such lengths (`len ≡ 56..63 (mod 64)`) make the
zero-fill count `512 - 64 - (bits % 512)` negative, and `Array` of a
negative length throws — here evaluated at a 56-byte `header.payload`
(bit length 449 after the appended `1` bit). A JWT of an ordinary length
(`jwtW1`, 128 bytes unsigned) succeeds, for contrast. -/
theorem c4_sha_padding_negative_fill :
    getUnsignedPaddedJWT jwtW4 1600 0 = .error ZKErr.negArrayLength ∧
    (getUnsignedPaddedJWT jwtW1 1600 0).isOk = true := by
  constructor
  · decide
  · decide

/-- C6: the claim says a JWT whose payload lacks one of `sub`, `aud`,
`iss`, `nonce` fails with a `MissingClaim` error; on the code a payload
with no `nonce` claim is not rejected at all — `generateZKInput` returns a
result, and the `nonce` claim locator silently latches onto the first
claim of the payload (the extracted `value` is the `iss` claim text
`"iss":"ha",`). -/
theorem c6_missing_nonce_not_fatal :
    (generateZKInput extW argsW3).isOk = true ∧
    ((getExtKCFields (decodeBase64 ((jsSplitDot jwtW3).getD 1 "undefined")) "nonce" 44
        jwtW3).map fun e => e.value) = .ok "\"iss\":\"ha\"," := by
  constructor
  · decide
  · decide


/-- Unfolding: the empty digit list denotes zero. -/
theorem convertAscii_nil (b : Nat) : convertAsciiToBigIntLE b [] = 0 := rfl

/-- Unfolding: little-endian digit evaluation on a cons cell. -/
theorem convertAscii_cons (b v : Nat) (l : List Nat) :
    convertAsciiToBigIntLE b (v :: l) = v + 2 ^ b * convertAsciiToBigIntLE b l := rfl

/-- Little-endian digit evaluation splits over append with a shifted
weight. -/
theorem convertAscii_append (b : Nat) (l1 l2 : List Nat) :
    convertAsciiToBigIntLE b (l1 ++ l2) =
      convertAsciiToBigIntLE b l1 + 2 ^ (b * l1.length) * convertAsciiToBigIntLE b l2 := by
  induction l1 with
  | nil => simp [convertAscii_nil]
  | cons v t ih =>
    rw [List.cons_append, convertAscii_cons, ih, convertAscii_cons, List.length_cons,
      Nat.mul_succ, pow_add]
    ring

/-- Zero padding denotes zero. -/
theorem convertAscii_replicate_zero (b k : Nat) :
    convertAsciiToBigIntLE b (List.replicate k 0) = 0 := by
  induction k with
  | zero => rfl
  | succ k ih => rw [List.replicate_succ, convertAscii_cons, ih]; ring

/-- The left fold of big-endian bit accumulation, against the little-endian
evaluation of the reversed list. -/
theorem bitsValueBE_foldl_eq (l : List Nat) :
    ∀ acc, l.foldl (fun a b => 2 * a + b) acc =
      acc * 2 ^ l.length + convertAsciiToBigIntLE 1 l.reverse := by
  induction l with
  | nil => intro acc; simp [convertAscii_nil]
  | cons c t ih =>
    intro acc
    rw [List.foldl_cons, ih, List.reverse_cons, convertAscii_append, List.length_cons,
      List.length_reverse]
    simp [convertAscii_cons, convertAscii_nil]
    ring

/-- `bitsValueBE` is the value of the reversed list read little-endian. -/
theorem bitsValueBE_eq (l : List Nat) :
    bitsValueBE l = convertAsciiToBigIntLE 1 l.reverse := by
  rw [bitsValueBE, bitsValueBEGo_eq, bitsValueBE_foldl_eq]
  simp

/-- The fueled little-endian bit expansion evaluates back to its input. -/
theorem bitsLEGo_val : ∀ f n, n ≤ f → convertAsciiToBigIntLE 1 (bitsLEGo f n) = n := by
  intro f
  induction f with
  | zero =>
    intro n h
    have : n = 0 := by omega
    subst this
    rfl
  | succ f ih =>
    intro n h
    cases n with
    | zero => rfl
    | succ m =>
      have hrec := ih ((m + 1) / 2) (by omega)
      simp only [bitsLEGo, convertAscii_cons, hrec, pow_one]
      omega

/-- Every entry of the bit expansion is a bit. -/
theorem bitsLEGo_lt_two : ∀ f n, ∀ b ∈ bitsLEGo f n, b < 2 := by
  intro f
  induction f with
  | zero =>
    intro n b hb
    cases n <;> simp [bitsLEGo] at hb
  | succ f ih =>
    intro n b hb
    cases n with
    | zero => simp [bitsLEGo] at hb
    | succ m =>
      simp only [bitsLEGo, List.mem_cons] at hb
      rcases hb with rfl | hb
      · omega
      · exact ih _ b hb

/-- Bit length bound of the fueled expansion. -/
theorem bitsLEGo_length : ∀ f n w, n < 2 ^ w → n ≤ f → (bitsLEGo f n).length ≤ w := by
  intro f
  induction f with
  | zero =>
    intro n w _ h
    have : n = 0 := by omega
    subst this
    simp [bitsLEGo]
  | succ f ih =>
    intro n w hw h
    cases n with
    | zero => simp [bitsLEGo]
    | succ m =>
      have hw1 : w ≠ 0 := by
        intro h0
        subst h0
        simp at hw
      obtain ⟨w', rfl⟩ : ∃ w', w = w' + 1 := ⟨w - 1, by omega⟩
      have hhalf : (m + 1) / 2 < 2 ^ w' := by
        have h2 : (2 : Nat) ^ (w' + 1) = 2 ^ w' * 2 := by rw [pow_succ]
        rw [Nat.div_lt_iff_lt_mul (by omega)]
        omega
      have := ih ((m + 1) / 2) w' hhalf (by omega)
      simp only [bitsLEGo, List.length_cons]
      omega

/-- The big-endian binary rendering evaluates back to its input. -/
theorem bitsBE_val (n : Nat) : convertAsciiToBigIntLE 1 (bitsBE n).reverse = n := by
  by_cases h : n = 0
  · subst h; rfl
  · rw [bitsBE, if_neg h, List.reverse_reverse]
    exact bitsLEGo_val n n le_rfl

/-- Every entry of the big-endian binary rendering is a bit. -/
theorem bitsBE_lt_two (n : Nat) : ∀ b ∈ bitsBE n, b < 2 := by
  intro b hb
  rw [bitsBE] at hb
  split at hb
  · simp at hb; omega
  · rw [List.mem_reverse] at hb
    exact bitsLEGo_lt_two n n b hb

/-- Length bound of the big-endian binary rendering. -/
theorem bitsBE_length_le (n w : Nat) (hn : n < 2 ^ w) (hw : 0 < w) :
    (bitsBE n).length ≤ w := by
  by_cases h : n = 0
  · subst h; simpa [bitsBE] using hw
  · rw [bitsBE, if_neg h, List.length_reverse]
    exact bitsLEGo_length n n w hn le_rfl

/-- Length of the zero-padded digit list. -/
theorem padStartZeros_length (w : Nat) (l : List Nat) :
    (padStartZeros w l).length = max w l.length := by
  simp [padStartZeros, listLen_eq]
  omega

/-- Zero padding at the most significant end does not change the value. -/
theorem padStartZeros_val (w : Nat) (l : List Nat) :
    convertAsciiToBigIntLE 1 (padStartZeros w l).reverse =
      convertAsciiToBigIntLE 1 l.reverse := by
  rw [padStartZeros, listLen_eq, List.reverse_append, convertAscii_append,
    List.reverse_replicate, convertAscii_replicate_zero]
  ring

/-- Membership in the zero-padded digit list. -/
theorem padStartZeros_mem (w : Nat) (l : List Nat) (b : Nat) (hb : b ∈ padStartZeros w l) :
    b = 0 ∨ b ∈ l := by
  rw [padStartZeros] at hb
  rcases List.mem_append.mp hb with h | h
  · exact Or.inl (List.eq_of_mem_replicate h)
  · exact Or.inr h


/-- Chunking the empty list gives no chunks, at any fuel. -/
theorem chunkListGo_nil (size : Nat) (fuel : List α) :
    chunkListGo size fuel ([] : List α) = [] := by
  cases fuel <;> rfl

/-- Fuel irrelevance of chunking: any fuel at least as long as the list
gives the same chunks. -/
theorem chunkListGo_congr {α : Type} {cs : Nat} (hcs : 1 ≤ cs) :
    ∀ (n : Nat) (l f1 f2 : List α), l.length ≤ n →
      l.length ≤ f1.length → l.length ≤ f2.length →
      chunkListGo cs f1 l = chunkListGo cs f2 l := by
  intro n
  induction n with
  | zero =>
    intro l f1 f2 hn _ _
    have : l = [] := List.length_eq_zero.mp (by omega)
    subst this
    rw [chunkListGo_nil, chunkListGo_nil]
  | succ n ih =>
    intro l f1 f2 hn h1 h2
    cases l with
    | nil => rw [chunkListGo_nil, chunkListGo_nil]
    | cons a t =>
      cases f1 with
      | nil => simp at h1
      | cons b1 g1 =>
        cases f2 with
        | nil => simp at h2
        | cons b2 g2 =>
          simp only [chunkListGo]
          congr 1
          apply ih ((a :: t).drop cs) g1 g2
          · simp only [List.length_drop, List.length_cons] at hn ⊢
            omega
          · simp only [List.length_drop, List.length_cons] at h1 ⊢
            omega
          · simp only [List.length_drop, List.length_cons] at h2 ⊢
            omega

/-- Chunking a non-empty list peels one chunk. -/
theorem chunkList_cons {α : Type} (cs : Nat) (hcs : 1 ≤ cs) (l : List α) (hl : l ≠ []) :
    chunkList l cs = l.take cs :: chunkList (l.drop cs) cs := by
  obtain ⟨a, t, rfl⟩ := List.exists_cons_of_ne_nil hl
  simp only [chunkList, chunkListGo]
  congr 1
  apply chunkListGo_congr hcs ((a :: t).drop cs).length
  · exact le_rfl
  · simp only [List.length_drop, List.length_cons]
    omega
  · exact le_rfl


/-- The number of chunks is the ceiling of length over chunk size. -/
theorem chunkList_length {α : Type} (cs : Nat) (hcs : 1 ≤ cs) :
    ∀ (n : Nat) (l : List α), l.length ≤ n →
      (chunkList l cs).length = (l.length + cs - 1) / cs := by
  intro n
  induction n with
  | zero =>
    intro l h
    have : l = [] := List.length_eq_zero.mp (by omega)
    subst this
    simp [chunkList, chunkListGo, Nat.div_eq_of_lt (by omega : cs - 1 < cs)]
  | succ n ih =>
    intro l h
    rcases eq_or_ne l [] with rfl | hne
    · simp [chunkList, chunkListGo, Nat.div_eq_of_lt (by omega : cs - 1 < cs)]
    · have hpos : 1 ≤ l.length := by
        cases l
        · exact absurd rfl hne
        · simp
      rw [chunkList_cons cs hcs l hne, List.length_cons,
        ih (l.drop cs) (by simp [List.length_drop]; omega), List.length_drop]
      have e : l.length + cs - 1 = (l.length - 1) + cs := by omega
      rw [e, Nat.add_div_right _ (by omega)]
      rcases le_or_lt cs l.length with hle | hlt
      · have e2 : l.length - cs + cs - 1 = l.length - 1 := by omega
        rw [e2]
      · have e2 : l.length - cs = 0 := by omega
        rw [e2, Nat.div_eq_of_lt (by omega : 0 + cs - 1 < cs),
          Nat.div_eq_of_lt (by omega : l.length - 1 < cs)]

/-- Every chunk is at most `cs` long. -/
theorem chunkList_chunk_length {α : Type} (cs : Nat) (hcs : 1 ≤ cs) :
    ∀ (n : Nat) (l : List α), l.length ≤ n →
      ∀ c ∈ chunkList l cs, c.length ≤ cs := by
  intro n
  induction n with
  | zero =>
    intro l h c hc
    have : l = [] := List.length_eq_zero.mp (by omega)
    subst this
    simp [chunkList, chunkListGo] at hc
  | succ n ih =>
    intro l h c hc
    rcases eq_or_ne l [] with rfl | hne
    · simp [chunkList, chunkListGo] at hc
    · rw [chunkList_cons cs hcs l hne] at hc
      rcases List.mem_cons.mp hc with rfl | hc
      · simp [List.length_take]
      · exact ih (l.drop cs) (by simp [List.length_drop]; omega) c hc

/-- Chunk entries come from the chunked list. -/
theorem chunkList_chunk_mem {α : Type} (cs : Nat) (hcs : 1 ≤ cs) :
    ∀ (n : Nat) (l : List α), l.length ≤ n →
      ∀ c ∈ chunkList l cs, ∀ x ∈ c, x ∈ l := by
  intro n
  induction n with
  | zero =>
    intro l h c hc
    have : l = [] := List.length_eq_zero.mp (by omega)
    subst this
    simp [chunkList, chunkListGo] at hc
  | succ n ih =>
    intro l h c hc x hx
    rcases eq_or_ne l [] with rfl | hne
    · simp [chunkList, chunkListGo] at hc
    · rw [chunkList_cons cs hcs l hne] at hc
      rcases List.mem_cons.mp hc with rfl | hc
      · exact List.take_subset cs l hx
      · exact List.drop_subset cs l (ih (l.drop cs) (by simp [List.length_drop]; omega) c hc x hx)

/-- Chunkwise little-endian evaluation with chunk-sized weights agrees
with bitwise evaluation. -/
theorem chunkList_value (cs : Nat) (hcs : 1 ≤ cs) :
    ∀ (n : Nat) (l : List Nat), l.length ≤ n →
      convertAsciiToBigIntLE cs ((chunkList l cs).map (convertAsciiToBigIntLE 1)) =
        convertAsciiToBigIntLE 1 l := by
  intro n
  induction n with
  | zero =>
    intro l h
    have : l = [] := List.length_eq_zero.mp (by omega)
    subst this
    rfl
  | succ n ih =>
    intro l h
    rcases eq_or_ne l [] with rfl | hne
    · rfl
    · rw [chunkList_cons cs hcs l hne, List.map_cons, convertAscii_cons,
        ih (l.drop cs) (by simp [List.length_drop]; omega)]
      conv_rhs => rw [← List.take_append_drop cs l]
      rw [convertAscii_append]
      rcases le_or_lt cs l.length with hle | hlt
      · rw [List.length_take, min_eq_left hle, one_mul]
      · rw [List.drop_eq_nil_of_le (by omega), convertAscii_nil]
        simp

/-- A digit list of bits evaluates below `2 ^ length`. -/
theorem convertAscii_lt (b : Nat) (l : List Nat) (h : ∀ x ∈ l, x < 2 ^ b) :
    convertAsciiToBigIntLE b l < 2 ^ (b * l.length) := by
  induction l with
  | nil => simp [convertAscii_nil]
  | cons v t ih =>
    rw [convertAscii_cons, List.length_cons, Nat.mul_succ, pow_add]
    have hv : v < 2 ^ b := h v (List.mem_cons_self v t)
    have ht : convertAsciiToBigIntLE b t < 2 ^ (b * t.length) :=
      ih fun x hx => h x (List.mem_cons_of_mem v hx)
    have e1 : 2 ^ b * (convertAsciiToBigIntLE b t + 1)
        = 2 ^ b * convertAsciiToBigIntLE b t + 2 ^ b := Nat.mul_succ _ _
    have e2 : 2 ^ b * (convertAsciiToBigIntLE b t + 1) ≤ 2 ^ b * 2 ^ (b * t.length) :=
      Nat.mul_le_mul_left _ (by omega)
    have e3 : (2 : Nat) ^ (b * t.length) * 2 ^ b = 2 ^ b * 2 ^ (b * t.length) :=
      Nat.mul_comm _ _
    omega

/-- Every term of a little-endian digit evaluation is at most the total. -/
theorem convertAscii_getD_le (b : Nat) (l : List Nat) :
    ∀ i, l.getD i 0 * 2 ^ (b * i) ≤ convertAsciiToBigIntLE b l := by
  induction l with
  | nil => intro i; simp
  | cons v t ih =>
    intro i
    cases i with
    | zero => simp [convertAscii_cons]
    | succ j =>
      rw [convertAscii_cons]
      have hj := ih j
      calc (v :: t).getD (j + 1) 0 * 2 ^ (b * (j + 1))
            = t.getD j 0 * (2 ^ (b * j) * 2 ^ b) := by
              rw [List.getD_cons_succ, Nat.mul_succ, pow_add]
        _ = 2 ^ b * (t.getD j 0 * 2 ^ (b * j)) := by ring
        _ ≤ 2 ^ b * convertAsciiToBigIntLE b t := Nat.mul_le_mul_left _ hj
        _ ≤ v + 2 ^ b * convertAsciiToBigIntLE b t := by omega


/-- `convertArrayToBinary` on a cons cell appends the new digit block in
front of the big-endian bit string. -/
theorem convertArrayToBinary_cons (v : Nat) (t : List Nat) (inBase : Nat) :
    convertArrayToBinary (v :: t) inBase =
      convertArrayToBinary t inBase ++ padStartZeros inBase (bitsBE v) := by
  simp [convertArrayToBinary, List.reverse_cons]

/-- Length of the big-endian bit string: one `inBase` block per digit. -/
theorem convertArrayToBinary_length (inBase : Nat) (hb : 1 ≤ inBase) (l : List Nat)
    (hbound : ∀ v ∈ l, v < 2 ^ inBase) :
    (convertArrayToBinary l inBase).length = l.length * inBase := by
  induction l with
  | nil => simp [convertArrayToBinary]
  | cons v t ih =>
    rw [convertArrayToBinary_cons, List.length_append,
      ih (fun x hx => hbound x (List.mem_cons_of_mem v hx)), padStartZeros_length]
    have hlen : (bitsBE v).length ≤ inBase :=
      bitsBE_length_le v inBase (hbound v (List.mem_cons_self v t)) (by omega)
    rw [max_eq_left hlen, List.length_cons, Nat.succ_mul]

/-- Value of the big-endian bit string, read back little-endian. -/
theorem convertArrayToBinary_val (inBase : Nat) (hb : 1 ≤ inBase) (l : List Nat)
    (hbound : ∀ v ∈ l, v < 2 ^ inBase) :
    convertAsciiToBigIntLE 1 (convertArrayToBinary l inBase).reverse =
      convertAsciiToBigIntLE inBase l := by
  induction l with
  | nil => rfl
  | cons v t ih =>
    rw [convertArrayToBinary_cons, List.reverse_append, convertAscii_append,
      padStartZeros_val, bitsBE_val, List.length_reverse, padStartZeros_length]
    have hlen : (bitsBE v).length ≤ inBase :=
      bitsBE_length_le v inBase (hbound v (List.mem_cons_self v t)) (by omega)
    rw [max_eq_left hlen, one_mul, ih (fun x hx => hbound x (List.mem_cons_of_mem v hx)),
      convertAscii_cons]

/-- Every entry of the big-endian bit string is a bit. -/
theorem convertArrayToBinary_bits (inBase : Nat) (l : List Nat) :
    ∀ b ∈ convertArrayToBinary l inBase, b < 2 := by
  induction l with
  | nil => simp [convertArrayToBinary]
  | cons v t ih =>
    intro b hb
    rw [convertArrayToBinary_cons, List.mem_append] at hb
    rcases hb with hb | hb
    · exact ih b hb
    · rcases padStartZeros_mem inBase (bitsBE v) b hb with rfl | hb
      · omega
      · exact bitsBE_lt_two v b hb

/-- C3 counterexample: `convertBase` does not return the little-endian
digit form — on `[1, 0]` (the value `1` in two little-endian base-256
digits) it returns `[0, 1]`, whose little-endian evaluation is `256`,
not `1`. -/
theorem c3_counterexample :
    convertBase [1, 0] 8 8 = [0, 1] ∧
    convertAsciiToBigIntLE 8 (convertBase [1, 0] 8 8) = 256 ∧
    convertAsciiToBigIntLE 8 [1, 0] = 1 := by
  refine ⟨by decide, by decide, by decide⟩

/-- C3 (amended): for a non-empty input of digits below `2^inBase` (with
positive digit widths), `convertBase` returns the BIG-endian digit list of
the same number: the length is `⌈len · inBase / outBase⌉`, every digit is
below `2^outBase`, the reversed (little-endian) digit list evaluates to
the input value, and digits beyond the significant bits — at the
most-significant end of the returned list — are zero. -/
theorem c3_convertBase_spec (inArrayLE : List Nat) (inBase outBase : Nat)
    (hin : 1 ≤ inBase) (hout : 1 ≤ outBase) (_hne : inArrayLE ≠ [])
    (hbound : ∀ v ∈ inArrayLE, v < 2 ^ inBase) :
    (convertBase inArrayLE inBase outBase).length
        = (inArrayLE.length * inBase + outBase - 1) / outBase ∧
    (∀ d ∈ convertBase inArrayLE inBase outBase, d < 2 ^ outBase) ∧
    convertAsciiToBigIntLE outBase (convertBase inArrayLE inBase outBase).reverse
        = convertAsciiToBigIntLE inBase inArrayLE ∧
    (∀ i, convertAsciiToBigIntLE inBase inArrayLE < 2 ^ (outBase * i) →
      (convertBase inArrayLE inBase outBase).reverse.getD i 0 = 0) := by
  have hlenB : (convertArrayToBinary inArrayLE inBase).length = inArrayLE.length * inBase :=
    convertArrayToBinary_length inBase hin inArrayLE hbound
  have hrevlen : (convertArrayToBinary inArrayLE inBase).reverse.length
      = inArrayLE.length * inBase := by
    rw [List.length_reverse, hlenB]
  have hrev : (convertBase inArrayLE inBase outBase).reverse
      = ((chunkList (convertArrayToBinary inArrayLE inBase).reverse outBase).map
          (convertAsciiToBigIntLE 1)) := by
    simp [convertBase]
  have hval : convertAsciiToBigIntLE outBase (convertBase inArrayLE inBase outBase).reverse
      = convertAsciiToBigIntLE inBase inArrayLE := by
    rw [hrev, chunkList_value outBase hout _ _ le_rfl, ← convertArrayToBinary_val inBase hin
      inArrayLE hbound]
  refine ⟨?_, ?_, hval, ?_⟩
  · have : (convertBase inArrayLE inBase outBase).length
        = (convertBase inArrayLE inBase outBase).reverse.length := by
      rw [List.length_reverse]
    rw [this, hrev, List.length_map, chunkList_length outBase hout _ _ le_rfl, hrevlen]
  · intro d hd
    have hd' : d ∈ (convertBase inArrayLE inBase outBase).reverse := by
      rwa [List.mem_reverse]
    rw [hrev] at hd'
    obtain ⟨c, hc, rfl⟩ := List.mem_map.mp hd'
    have hclen : c.length ≤ outBase :=
      chunkList_chunk_length outBase hout _ _ le_rfl c hc
    have hcbits : ∀ x ∈ c, x < 2 ^ 1 := by
      intro x hx
      have hxin := chunkList_chunk_mem outBase hout _ _ le_rfl c hc x hx
      rw [List.mem_reverse] at hxin
      have := convertArrayToBinary_bits inBase inArrayLE x hxin
      simpa using this
    have := convertAscii_lt 1 c hcbits
    calc convertAsciiToBigIntLE 1 c < 2 ^ (1 * c.length) := this
      _ ≤ 2 ^ outBase := Nat.pow_le_pow_right (by omega) (by omega)
  · intro i hi
    have hterm := convertAscii_getD_le outBase
      (convertBase inArrayLE inBase outBase).reverse i
    rw [hval] at hterm
    by_contra hne0
    have h1 : 1 ≤ (convertBase inArrayLE inBase outBase).reverse.getD i 0 := by omega
    have h2 : 2 ^ (outBase * i)
        ≤ (convertBase inArrayLE inBase outBase).reverse.getD i 0 * 2 ^ (outBase * i) :=
      Nat.le_mul_of_pos_left _ (by omega)
    omega

/-- Closed witness for C3: the amended statement evaluated at
`convertBase [1, 0] 8 8`. -/
theorem c3_witness :
    (convertBase [1, 0] 8 8).length = 2 ∧
    (∀ d ∈ convertBase [1, 0] 8 8, d < 2 ^ 8) ∧
    convertAsciiToBigIntLE 8 (convertBase [1, 0] 8 8).reverse = 1 ∧
    (convertBase [1, 0] 8 8).reverse.getD 1 0 = 0 := by
  have h := c3_convertBase_spec [1, 0] 8 8 (by decide) (by decide) (by decide) (by decide)
  refine ⟨?_, h.2.1, ?_, ?_⟩
  · rw [h.1]; decide
  · rw [h.2.2.1]; decide
  · exact h.2.2.2 1 (by decide)


/-- Chunking distributes over append when the first part is a whole number
of chunks. -/
theorem chunkList_append_of_multiple {α : Type} (cs : Nat) (hcs : 1 ≤ cs) :
    ∀ (n : Nat) (A B : List α), A.length ≤ n → A.length % cs = 0 →
      chunkList (A ++ B) cs = chunkList A cs ++ chunkList B cs := by
  intro n
  induction n with
  | zero =>
    intro A B hn _
    have : A = [] := List.length_eq_zero.mp (by omega)
    subst this
    simp [chunkList, chunkListGo_nil]
  | succ n ih =>
    intro A B hn hmod
    rcases eq_or_ne A [] with rfl | hne
    · simp [chunkList, chunkListGo_nil]
    · have hpos : 1 ≤ A.length := by
        cases A
        · exact absurd rfl hne
        · simp
      have hcsle : cs ≤ A.length := by
        rcases Nat.lt_or_ge A.length cs with hlt | hge
        · rw [Nat.mod_eq_of_lt hlt] at hmod
          omega
        · exact hge
      rcases eq_or_ne B [] with rfl | hneB
      · simp [chunkList, chunkListGo_nil]
      · have hne2 : A ++ B ≠ [] := by simp [hne]
        rw [chunkList_cons cs hcs (A ++ B) hne2, chunkList_cons cs hcs A hne,
          List.take_append_of_le_length hcsle, List.drop_append_of_le_length hcsle]
        rw [ih (A.drop cs) B (by simp [List.length_drop]; omega) ?_]
        · simp
        · rw [List.length_drop]
          obtain ⟨q, hq⟩ := Nat.dvd_of_mod_eq_zero hmod
          cases q with
          | zero => rw [hq] at hpos; simp at hpos
          | succ q2 =>
            have e : A.length - cs = cs * q2 := by rw [hq, Nat.mul_succ]; omega
            rw [e, Nat.mul_mod_right]


/-- Chunking a list whose length is exactly the chunk size gives one chunk. -/
theorem chunkList_singleton {α : Type} (cs : Nat) (hcs : 1 ≤ cs) (m : List α)
    (hm : m.length = cs) : chunkList m cs = [m] := by
  have hne : m ≠ [] := by
    intro h
    subst h
    simp at hm
    omega
  have ht : m.take cs = m := by rw [← hm, List.take_length]
  have hd : m.drop cs = [] := by rw [← hm, List.drop_length]
  rw [chunkList_cons cs hcs m hne, ht, hd]
  simp [chunkList, chunkListGo_nil]

/-- Reversing a list whose length is a multiple of the chunk size reverses
the chunk list and each chunk. -/
theorem chunkList_reverse_of_multiple {α : Type} (cs : Nat) (hcs : 1 ≤ cs) :
    ∀ (n : Nat) (l : List α), l.length ≤ n → l.length % cs = 0 →
      chunkList l.reverse cs = ((chunkList l cs).map List.reverse).reverse := by
  intro n
  induction n with
  | zero =>
    intro l hn _
    have : l = [] := List.length_eq_zero.mp (by omega)
    subst this
    simp [chunkList, chunkListGo_nil]
  | succ n ih =>
    intro l hn hmod
    rcases eq_or_ne l [] with rfl | hne
    · simp [chunkList, chunkListGo_nil]
    · have hpos : 1 ≤ l.length := by
        cases l
        · exact absurd rfl hne
        · simp
      have hcsle : cs ≤ l.length := by
        rcases Nat.lt_or_ge l.length cs with hlt | hge
        · rw [Nat.mod_eq_of_lt hlt] at hmod
          omega
        · exact hge
      have hdropmod : (l.drop cs).length % cs = 0 := by
        rw [List.length_drop]
        obtain ⟨q, hq⟩ := Nat.dvd_of_mod_eq_zero hmod
        cases q with
        | zero => rw [hq] at hpos; simp at hpos
        | succ q2 =>
          have e : l.length - cs = cs * q2 := by rw [hq, Nat.mul_succ]; omega
          rw [e, Nat.mul_mod_right]
      conv_lhs => rw [← List.take_append_drop cs l]
      rw [List.reverse_append,
        chunkList_append_of_multiple cs hcs (l.drop cs).reverse.length (l.drop cs).reverse
          ((l.take cs).reverse) le_rfl (by rw [List.length_reverse]; exact hdropmod),
        ih (l.drop cs) (by simp [List.length_drop]; omega) hdropmod,
        chunkList_singleton cs hcs ((l.take cs).reverse) (by simp [List.length_take]; omega),
        chunkList_cons cs hcs l hne, List.map_cons, List.reverse_cons]

/-- Core of the limb decomposition: padded big-endian bits, chunked and
read chunkwise big-endian then reversed, form little-endian limbs. -/
theorem getLimbsAux (cs : Nat) (hcs : 0 < cs) (w : Nat) (bits0 : List Nat)
    (hw : bits0.length ≤ w) (hwmod : w % cs = 0) (hbits : ∀ b ∈ bits0, b < 2) :
    convertAsciiToBigIntLE cs (((chunkList (padStartZeros w bits0) cs).map bitsValueBE).reverse)
      = convertAsciiToBigIntLE 1 bits0.reverse ∧
    ∀ d ∈ ((chunkList (padStartZeros w bits0) cs).map bitsValueBE).reverse, d < 2 ^ cs := by
  have hPlen : (padStartZeros w bits0).length = w := by
    rw [padStartZeros_length]
    omega
  have hPmod : (padStartZeros w bits0).length % cs = 0 := by
    rw [hPlen]
    exact hwmod
  constructor
  · have hrev := chunkList_reverse_of_multiple cs hcs (padStartZeros w bits0).length
      (padStartZeros w bits0) le_rfl hPmod
    have h2 : (chunkList (padStartZeros w bits0).reverse cs).map (convertAsciiToBigIntLE 1)
        = ((chunkList (padStartZeros w bits0) cs).map bitsValueBE).reverse := by
      rw [hrev, List.map_reverse, List.map_map]
      exact congrArg List.reverse (List.map_congr_left fun c _ => (bitsValueBE_eq c).symm)
    rw [← h2,
      chunkList_value cs hcs (padStartZeros w bits0).reverse.length
        (padStartZeros w bits0).reverse le_rfl,
      padStartZeros_val]
  · intro d hd
    rw [List.mem_reverse, List.mem_map] at hd
    obtain ⟨c, hc, hdc⟩ := hd
    rw [← hdc, bitsValueBE_eq]
    have hlen : c.length ≤ cs :=
      chunkList_chunk_length cs hcs (padStartZeros w bits0).length
        (padStartZeros w bits0) le_rfl c hc
    have hbitsc : ∀ x ∈ c.reverse, x < 2 ^ 1 := by
      intro x hx
      rw [List.mem_reverse] at hx
      have hxP := chunkList_chunk_mem cs hcs (padStartZeros w bits0).length
        (padStartZeros w bits0) le_rfl c hc x hx
      rcases padStartZeros_mem w bits0 x hxP with rfl | hxb
      · decide
      · simpa using hbits x hxb
    have h1 := convertAscii_lt 1 c.reverse hbitsc
    have h2 : (2 : Nat) ^ (1 * c.reverse.length) ≤ 2 ^ cs := by
      apply Nat.pow_le_pow_right
      · omega
      · rw [List.length_reverse]
        omega
    omega

/-- `getLimbs` returns little-endian `base`-bit limbs of `num`: the
weighted sum recovers `num` and every limb is below `2 ^ base`. -/
theorem getLimbs_spec (base num : Nat) (hb : 0 < base) :
    convertAsciiToBigIntLE base (getLimbs base num) = num ∧
    ∀ d ∈ getLimbs base num, d < 2 ^ base := by
  have hLle : (bitsBE num).length ≤ ((bitsBE num).length + base - 1) / base * base := by
    have h1 := Nat.div_add_mod ((bitsBE num).length + base - 1) base
    have h2 := Nat.mod_lt ((bitsBE num).length + base - 1) hb
    have h3 : ((bitsBE num).length + base - 1) / base * base
        = base * (((bitsBE num).length + base - 1) / base) := Nat.mul_comm _ _
    omega
  have hmod : (((bitsBE num).length + base - 1) / base * base) % base = 0 :=
    Nat.mul_mod_left _ _
  have hgl : getLimbs base num =
      ((chunkList (padStartZeros (((bitsBE num).length + base - 1) / base * base)
        (bitsBE num)) base).map bitsValueBE).reverse := by
    simp only [getLimbs, listLen_eq]
  obtain ⟨hv, hbnd⟩ := getLimbsAux base hb (((bitsBE num).length + base - 1) / base * base)
    (bitsBE num) hLle hmod (bitsBE_lt_two num)
  rw [hgl, hv, bitsBE_val]
  exact ⟨rfl, hbnd⟩

/-- A successful `parseJWT` pins the payload view to the result of jose's
`decodeJwt`. -/
theorem parseJWT_decodeJwt (ext : Ext) (jwt : String) (hd : JWTHeaderView)
    (pl : JWTPayloadView) (h : parseJWT ext jwt = .ok (hd, pl)) :
    ext.decodeJwt jwt = some pl := by
  unfold parseJWT at h
  cases hdj : ext.decodeJwt jwt with
  | none => rw [hdj] at h; simp [Bind.bind, Except.bind] at h
  | some p =>
    rw [hdj] at h
    simp only [Bind.bind, Except.bind] at h
    split at h
    · split at h
      · exact absurd h (by simp)
      · simp only [Except.ok.injEq, Prod.mk.injEq] at h
        rw [h.2]
    · exact absurd h (by simp)



/-- Inversion of a successful `generateZKInput` run: the address seed in
the result is exactly `addressSeedOfClaims` of the jose payload's `sub`
and `aud` claims and the salt argument, and the emitted `modulus` and
`signature` arrays are the little-endian 64-bit limbs of the derived RSA
integers. -/
theorem generateZKInput_ok_inv (ext : Ext) (a : ZKArgs) (r : ZKResult)
    (h : generateZKInput ext a = .ok r) :
    (∃ pl, ext.decodeJwt a.jwt = some pl ∧
      ∃ subV audV, pl.sub = some subV ∧ pl.aud = some audV ∧
        addressSeedOfClaims ext.prims subV audV a.salt = .ok r.fields.address_seed) ∧
    (∃ mBN, rsaModulusBN ext a = .ok mBN ∧ r.inputs.modulus = getLimbs 64 mBN) ∧
    (∃ sBN, rsaSignatureBN a = .ok sBN ∧ r.inputs.signature = getLimbs 64 sBN) := by
  unfold generateZKInput at h
  simp only [except_bind_ok] at h
  obtain ⟨⟨hd, pl⟩, e_parse, nStr, e_mod, mBN, e_mbn, sBN, e_sbn, upj, e_upj, kc, e_kc,
    nonceE, e_nonce, ev, e_ev, audE, e_aud, iss, e_iss, keyB, e_key, suiB, e_sui,
    issIn, e_issIn, issF, e_issF, kcNameIn, e_kcNameIn, kcNameF, e_kcNameF, h⟩ := h
  cases hsubv : pl.sub with
  | none => rw [hsubv] at h; simp [Bind.bind, Except.bind] at h
  | some subV =>
    rw [hsubv] at h
    simp only [except_bind_ok, Except.ok.injEq, exists_eq_left'] at h
    obtain ⟨kcValueIn, e_kcVIn, kcValueF, e_kcVF, h⟩ := h
    cases haudv : pl.aud with
    | none => rw [haudv] at h; simp [Bind.bind, Except.bind] at h
    | some audV =>
      rw [haudv] at h
      simp only [except_bind_ok, Except.ok.injEq, exists_eq_left'] at h
      obtain ⟨audVIn, e_audVIn, audVF, e_audVF, headerIn, e_headerIn, headerF, e_headerF,
        modulusF, e_modF, saltA, e_saltA, saltBNv, e_saltBN, addrSeed, e_addr,
        allIH, e_allIH, h⟩ := h
      subst h
      refine ⟨⟨pl, parseJWT_decodeJwt ext a.jwt hd pl e_parse, subV, audV, hsubv, haudv, ?_⟩,
        ⟨mBN, ?_, ?_⟩, ⟨sBN, ?_, ?_⟩⟩
      · simp only [addressSeedOfClaims, e_kcNameIn, e_kcNameF, e_kcVIn, e_kcVF, e_audVIn,
          e_audVF, e_saltA, e_saltBN, e_addr, Bind.bind, Except.bind]
      · simp only [rsaModulusBN, e_parse, e_mod, e_mbn, Bind.bind, Except.bind]
      · simp [List.reverse_reverse]
      · simp only [rsaSignatureBN, e_sbn]
      · simp


/-- C1: the `address_seed` returned by `generateZKInput` is a function of
the key-claim name (fixed to `sub`), the `sub` and `aud` claim values and
the salt string alone — two successful calls whose JWTs carry the same
`sub` and `aud` values and which receive the same salt return the same
`fields.address_seed`, however they differ in `jwt_randomness`,
`max_epoch` or the ephemeral public key. -/
theorem c1_address_seed_function_of_identity (ext : Ext) (a1 a2 : ZKArgs)
    (r1 r2 : ZKResult) (pl1 pl2 : JWTPayloadView)
    (hpl1 : ext.decodeJwt a1.jwt = some pl1) (hpl2 : ext.decodeJwt a2.jwt = some pl2)
    (hsub : pl1.sub = pl2.sub) (haud : pl1.aud = pl2.aud) (hsalt : a1.salt = a2.salt)
    (h1 : generateZKInput ext a1 = .ok r1) (h2 : generateZKInput ext a2 = .ok r2) :
    r1.fields.address_seed = r2.fields.address_seed := by
  obtain ⟨⟨pl1b, hpl1b, s1, av1, hs1, ha1, hseed1⟩, _, _⟩ := generateZKInput_ok_inv ext a1 r1 h1
  obtain ⟨⟨pl2b, hpl2b, s2, av2, hs2, ha2, hseed2⟩, _, _⟩ := generateZKInput_ok_inv ext a2 r2 h2
  rw [hpl1] at hpl1b
  rw [hpl2] at hpl2b
  injection hpl1b with e1
  injection hpl2b with e2
  subst e1
  subst e2
  have hs12 : some s1 = some s2 := by rw [← hs1, hsub, hs2]
  have ha12 : some av1 = some av2 := by rw [← ha1, haud, ha2]
  injection hs12 with es
  injection ha12 with ea
  subst es
  subst ea
  rw [hsalt] at hseed1
  rw [hseed1] at hseed2
  exact Except.ok.inj hseed2

/-- Closed witness for C1: two concrete calls differing in nonce,
ephemeral key, epoch and randomness but agreeing on `sub`, `aud` and salt
both succeed and return the same address seed. -/
theorem c1_witness :
    ∃ r1 r2, generateZKInput extW argsW1 = .ok r1 ∧ generateZKInput extW argsW2 = .ok r2 ∧
      r1.fields.address_seed = r2.fields.address_seed := by
  have hok1 : (generateZKInput extW argsW1).isOk = true := by decide
  have hok2 : (generateZKInput extW argsW2).isOk = true := by decide
  obtain ⟨r1, hr1⟩ : ∃ r1, generateZKInput extW argsW1 = .ok r1 := by
    cases hh : generateZKInput extW argsW1 with
    | ok v => exact ⟨v, rfl⟩
    | error e => rw [hh] at hok1; simp [Except.isOk, Except.toBool] at hok1
  obtain ⟨r2, hr2⟩ : ∃ r2, generateZKInput extW argsW2 = .ok r2 := by
    cases hh : generateZKInput extW argsW2 with
    | ok v => exact ⟨v, rfl⟩
    | error e => rw [hh] at hok2; simp [Except.isOk, Except.toBool] at hok2
  exact ⟨r1, r2, hr1, hr2,
    c1_address_seed_function_of_identity extW argsW1 argsW2 r1 r2
      ⟨some "19", some "cd"⟩ ⟨some "19", some "cd"⟩ rfl rfl rfl rfl rfl hr1 hr2⟩

/-- C5: `generateZKInput` is deterministic — it is embedded as a pure
function of its argument record and the external-library functions, with
no clock, randomness source or ambient state, so equal argument tuples
give identical `{inputs, fields}` results. -/
theorem c5_generateZKInput_deterministic (ext : Ext) (a b : ZKArgs) (h : a = b) :
    generateZKInput ext a = generateZKInput ext b := by
  rw [h]

/-- Closed witness for C5 at a concrete argument tuple. -/
theorem c5_witness : generateZKInput extW argsW1 = generateZKInput extW argsW1 :=
  c5_generateZKInput_deterministic extW argsW1 argsW1 rfl

/-- C10: for every successful `generateZKInput` run, the emitted
`inputs.modulus` equals the little-endian 64-bit limb decomposition of the
JWKS RSA modulus integer — despite the limb array being reversed twice in
place in the source — with every limb below `2^64` and the weighted sum
recovering the modulus; likewise `inputs.signature` for the RSA signature
integer. -/
theorem c10_modulus_signature_limbs (ext : Ext) (a : ZKArgs) (r : ZKResult) (mBN sBN : Nat)
    (hok : generateZKInput ext a = .ok r)
    (hm : rsaModulusBN ext a = .ok mBN) (hs : rsaSignatureBN a = .ok sBN) :
    (r.inputs.modulus = getLimbs 64 mBN ∧
     convertAsciiToBigIntLE 64 r.inputs.modulus = mBN ∧
     (∀ d ∈ r.inputs.modulus, d < 2 ^ 64)) ∧
    (r.inputs.signature = getLimbs 64 sBN ∧
     convertAsciiToBigIntLE 64 r.inputs.signature = sBN ∧
     (∀ d ∈ r.inputs.signature, d < 2 ^ 64)) := by
  obtain ⟨_, ⟨mB, hmB, hmod⟩, ⟨sB, hsB, hsig⟩⟩ := generateZKInput_ok_inv ext a r hok
  rw [hm] at hmB
  rw [hs] at hsB
  injection hmB with em
  injection hsB with es
  subst em
  subst es
  obtain ⟨hmv, hmb⟩ := getLimbs_spec 64 mBN (by omega)
  obtain ⟨hsv, hsb⟩ := getLimbs_spec 64 sBN (by omega)
  exact ⟨⟨hmod, by rw [hmod, hmv], fun d hd => hmb d (hmod ▸ hd)⟩,
    ⟨hsig, by rw [hsig, hsv], fun d hd => hsb d (hsig ▸ hd)⟩⟩

/-- Closed witness for C10: the concrete run whose JWKS modulus is the
integer `49973` (bytes `C3 35`) and whose signature segment decodes to
`65`. -/
theorem c10_witness :
    ∃ r, generateZKInput extW argsW1 = .ok r ∧
      r.inputs.modulus = getLimbs 64 49973 ∧
      convertAsciiToBigIntLE 64 r.inputs.modulus = 49973 ∧
      r.inputs.signature = getLimbs 64 65 ∧
      convertAsciiToBigIntLE 64 r.inputs.signature = 65 := by
  have hok : (generateZKInput extW argsW1).isOk = true := by decide
  obtain ⟨r, hr⟩ : ∃ r, generateZKInput extW argsW1 = .ok r := by
    cases hh : generateZKInput extW argsW1 with
    | ok v => exact ⟨v, rfl⟩
    | error e => rw [hh] at hok; simp [Except.isOk, Except.toBool] at hok
  have hm : rsaModulusBN extW argsW1 = .ok 49973 := by decide
  have hs : rsaSignatureBN argsW1 = .ok 65 := by decide
  obtain ⟨⟨h1, h2, _⟩, ⟨h3, h4, _⟩⟩ :=
    c10_modulus_signature_limbs extW argsW1 r 49973 65 hr hm hs
  exact ⟨r, hr, h1, h2, h3, h4⟩

end KZero
